import Mathlib

/-!
Verification development for the phishing-template generator repository
(`utils.py`, `services.py`, `models.py`, `prompts.py`).

The Python sources are shallowly embedded: strings are `List Char`,
Python's `re` searches are modelled by a small backtracking matcher whose
token lists transcribe the concrete regular expressions used by the code,
stateful services become explicit state-passing functions, and the external
text-generation client is an oracle parameter (`Bool` availability plus an
`Except String String` completion).  Wall-clock values (timestamps,
durations) are irrelevant to every property below and are omitted from the
embedded records.
-/

namespace Phish

set_option maxRecDepth 16000

/-- Strings of the embedded programs: Python `str` as a list of characters. -/
abbrev Str := List Char

/-! ## Python string primitives -/

/-- Python `str.strip()` whitespace class (ASCII part, which is all the
embedded inputs use): space, tab, newline, carriage return, vertical tab,
form feed.  Also the `\s` class of the `re` patterns below. -/
def pyIsSpace (c : Char) : Bool :=
  c == ' ' || c == '\t' || c == '\n' || c == '\r' || c == '\x0b' || c == '\x0c'

/-- Python `str.lower()` on one character (ASCII). -/
def pyLowerChar (c : Char) : Char :=
  if 'A' ≤ c && c ≤ 'Z' then Char.ofNat (c.toNat + 32) else c

/-- Python `str.lower()` (ASCII). -/
def pyLower (s : Str) : Str := s.map pyLowerChar

/-- Python `str.strip()`: drop leading whitespace. -/
def lstrip (s : Str) : Str := s.dropWhile pyIsSpace

/-- Python `str.strip()`: drop trailing whitespace. -/
def rstrip (s : Str) : Str := (s.reverse.dropWhile pyIsSpace).reverse

/-- Python `str.strip()`. -/
def strip (s : Str) : Str := rstrip (lstrip s)

/-- Does `text` start with `pat`? (`str.startswith`). -/
def startsWith : Str → Str → Bool
  | [], _ => true
  | _ :: _, [] => false
  | p :: ps, t :: ts => p == t && startsWith ps ts

/-- `pat` occurs in `text` at index `i`. -/
def occursAt (pat text : Str) (i : Nat) : Prop :=
  startsWith pat (text.drop i) = true

instance (pat text : Str) (i : Nat) : Decidable (occursAt pat text i) := by
  unfold occursAt; infer_instance

/-- Helper for `findSub`: first occurrence of `pat` in `rest`, reporting
indices offset by `i`. -/
def findSubAux (pat : Str) : Str → Nat → Option Nat
  | rest, i =>
    if startsWith pat rest then some i
    else
      match rest with
      | [] => none
      | _ :: rs => findSubAux pat rs (i + 1)

/-- Python `str.find` (as `Option` instead of `-1`): index of the first
occurrence of `pat` in `text`. -/
def findSub (pat text : Str) : Option Nat := findSubAux pat text 0

/-- Python `pat in text` substring test. -/
def containsSub (pat text : Str) : Bool := (findSub pat text).isSome

/-- Helper for `rfindSub`: scan left to right remembering the last hit. -/
def rfindSubAux (pat : Str) : Str → Nat → Option Nat → Option Nat
  | rest, i, best =>
    let best' := if startsWith pat rest then some i else best
    match rest with
    | [] => best'
    | _ :: rs => rfindSubAux pat rs (i + 1) best'

/-- Python `str.rfind` (as `Option`): index of the last occurrence. -/
def rfindSub (pat text : Str) : Option Nat := rfindSubAux pat text 0 none

/-- Python slice `text[a:b]` (for the in-range uses of the sources). -/
def sliceStr (text : Str) (a b : Nat) : Str := (text.take b).drop a

/-! ## Specifications of the search primitives -/

theorem startsWith_iff_prefixOf (pat text : Str) :
    startsWith pat text = true ↔ pat <+: text := by
  induction pat generalizing text with
  | nil => simp [startsWith]
  | cons p ps ih =>
    cases text with
    | nil => simp [startsWith]
    | cons t ts =>
      simp only [startsWith, Bool.and_eq_true, beq_iff_eq, List.cons_prefix_cons, ih]

theorem startsWith_append_left {p q text : Str}
    (h : startsWith (p ++ q) text = true) : startsWith p text = true := by
  rw [startsWith_iff_prefixOf] at h ⊢
  exact (List.prefix_append p q).trans h

theorem occursAt_nil (pat : Str) (k : Nat) :
    occursAt pat [] k ↔ startsWith pat [] = true := by
  simp [occursAt]

theorem occursAt_zero (pat text : Str) :
    occursAt pat text 0 ↔ startsWith pat text = true := by
  simp [occursAt]

theorem occursAt_cons_succ (pat : Str) (c : Char) (cs : Str) (k : Nat) :
    occursAt pat (c :: cs) (k + 1) ↔ occursAt pat cs k := by
  simp [occursAt]

theorem findSubAux_eq_some_iff (pat : Str) : ∀ (rest : Str) (i j : Nat),
    findSubAux pat rest i = some j ↔
      ∃ d, j = i + d ∧ occursAt pat rest d ∧ ∀ e < d, ¬ occursAt pat rest e := by
  intro rest
  induction rest with
  | nil =>
    intro i j
    rw [findSubAux]
    by_cases hs : startsWith pat [] = true
    · rw [if_pos hs]
      constructor
      · intro h
        injection h with h
        exact ⟨0, by omega, (occursAt_nil pat 0).mpr hs,
          fun e he => absurd he (Nat.not_lt_zero e)⟩
      · rintro ⟨d, rfl, hocc, hmin⟩
        rcases Nat.eq_zero_or_pos d with hd | hd
        · subst hd; rfl
        · exact absurd ((occursAt_nil pat 0).mpr hs) (hmin 0 hd)
    · rw [if_neg hs]
      constructor
      · intro h; cases h
      · rintro ⟨d, rfl, hocc, _⟩
        exact absurd ((occursAt_nil pat d).mp hocc) hs
  | cons c cs ih =>
    intro i j
    rw [findSubAux]
    by_cases hs : startsWith pat (c :: cs) = true
    · rw [if_pos hs]
      constructor
      · intro h
        injection h with h
        exact ⟨0, by omega, (occursAt_zero pat (c :: cs)).mpr hs,
          fun e he => absurd he (Nat.not_lt_zero e)⟩
      · rintro ⟨d, rfl, hocc, hmin⟩
        rcases Nat.eq_zero_or_pos d with hd | hd
        · subst hd; rfl
        · exact absurd ((occursAt_zero pat (c :: cs)).mpr hs) (hmin 0 hd)
    · rw [if_neg hs]
      rw [ih (i + 1) j]
      constructor
      · rintro ⟨d, rfl, hocc, hmin⟩
        refine ⟨d + 1, by omega, (occursAt_cons_succ pat c cs d).mpr hocc, ?_⟩
        intro e he
        cases e with
        | zero => rw [occursAt_zero]; exact fun h => hs h
        | succ e' =>
          rw [occursAt_cons_succ]
          exact hmin e' (by omega)
      · rintro ⟨d, rfl, hocc, hmin⟩
        cases d with
        | zero => exact absurd ((occursAt_zero pat (c :: cs)).mp hocc) hs
        | succ d' =>
          exact ⟨d', by omega, (occursAt_cons_succ pat c cs d').mp hocc,
            fun e he => fun h =>
              hmin (e + 1) (by omega) ((occursAt_cons_succ pat c cs e).mpr h)⟩

theorem findSub_eq_some_iff (pat text : Str) (j : Nat) :
    findSub pat text = some j ↔
      occursAt pat text j ∧ ∀ k < j, ¬ occursAt pat text k := by
  rw [findSub, findSubAux_eq_some_iff]
  constructor
  · rintro ⟨d, rfl, hocc, hmin⟩
    exact ⟨by simpa using hocc, fun k hk => by simpa using hmin k (by omega)⟩
  · rintro ⟨hocc, hmin⟩
    exact ⟨j, by omega, hocc, fun e he => hmin e he⟩

theorem rfindSubAux_eq_some_iff (pat : Str) (hp : pat ≠ []) :
    ∀ (rest : Str) (i : Nat) (best : Option Nat) (j : Nat),
    rfindSubAux pat rest i best = some j ↔
      ((∃ d, j = i + d ∧ occursAt pat rest d ∧ ∀ e, d < e → ¬ occursAt pat rest e) ∨
       (best = some j ∧ ∀ e, ¬ occursAt pat rest e)) := by
  have hnil : startsWith pat [] = false := by
    cases pat with
    | nil => exact absurd rfl hp
    | cons p ps => rfl
  intro rest
  induction rest with
  | nil =>
    intro i best j
    rw [rfindSubAux]
    simp only [hnil, Bool.false_eq_true, if_false]
    constructor
    · intro h
      exact Or.inr ⟨h, fun e hc => by rw [occursAt_nil, hnil] at hc; cases hc⟩
    · rintro (⟨d, _, hocc, _⟩ | ⟨hb, _⟩)
      · rw [occursAt_nil, hnil] at hocc; cases hocc
      · exact hb
  | cons c cs ih =>
    intro i best j
    rw [rfindSubAux]
    by_cases hs : startsWith pat (c :: cs) = true
    · simp only [hs, if_true]
      rw [ih (i + 1) (some i) j]
      constructor
      · rintro (⟨d', rfl, hocc, hmax⟩ | ⟨hb, hnone⟩)
        · refine Or.inl ⟨d' + 1, by omega, (occursAt_cons_succ pat c cs d').mpr hocc, ?_⟩
          intro e he
          cases e with
          | zero => omega
          | succ e' => rw [occursAt_cons_succ]; exact hmax e' (by omega)
        · injection hb with hb
          refine Or.inl ⟨0, by omega, (occursAt_zero pat (c :: cs)).mpr hs, ?_⟩
          intro e he
          cases e with
          | zero => omega
          | succ e' => rw [occursAt_cons_succ]; exact hnone e'
      · rintro (⟨d, rfl, hocc, hmax⟩ | ⟨_, hnone⟩)
        · cases d with
          | zero =>
            refine Or.inr ⟨by rfl, fun e => ?_⟩
            have := hmax (e + 1) (by omega)
            rw [occursAt_cons_succ] at this
            exact this
          | succ d' =>
            refine Or.inl ⟨d', by omega, (occursAt_cons_succ pat c cs d').mp hocc, ?_⟩
            intro e he
            have := hmax (e + 1) (by omega)
            rw [occursAt_cons_succ] at this
            exact this
        · exact absurd ((occursAt_zero pat (c :: cs)).mpr hs) (hnone 0)
    · rw [if_neg hs]
      rw [ih (i + 1) best j]
      constructor
      · rintro (⟨d', rfl, hocc, hmax⟩ | ⟨hb, hnone⟩)
        · refine Or.inl ⟨d' + 1, by omega, (occursAt_cons_succ pat c cs d').mpr hocc, ?_⟩
          intro e he
          cases e with
          | zero => omega
          | succ e' => rw [occursAt_cons_succ]; exact hmax e' (by omega)
        · refine Or.inr ⟨hb, fun e => ?_⟩
          cases e with
          | zero => rw [occursAt_zero]; exact fun h => hs h
          | succ e' => rw [occursAt_cons_succ]; exact hnone e'
      · rintro (⟨d, rfl, hocc, hmax⟩ | ⟨hb, hnone⟩)
        · cases d with
          | zero => exact absurd ((occursAt_zero pat (c :: cs)).mp hocc) hs
          | succ d' =>
            refine Or.inl ⟨d', by omega, (occursAt_cons_succ pat c cs d').mp hocc, ?_⟩
            intro e he
            have := hmax (e + 1) (by omega)
            rw [occursAt_cons_succ] at this
            exact this
        · refine Or.inr ⟨hb, fun e => ?_⟩
          have := hnone (e + 1)
          rw [occursAt_cons_succ] at this
          exact this

theorem rfindSub_eq_some_iff (pat text : Str) (hp : pat ≠ []) (j : Nat) :
    rfindSub pat text = some j ↔
      occursAt pat text j ∧ ∀ k, j < k → ¬ occursAt pat text k := by
  rw [rfindSub, rfindSubAux_eq_some_iff pat hp]
  constructor
  · rintro (⟨d, rfl, hocc, hmax⟩ | ⟨hb, _⟩)
    · exact ⟨by simpa using hocc, fun k hk => by simpa using hmax k (by omega)⟩
    · cases hb
  · rintro ⟨hocc, hmax⟩
    exact Or.inl ⟨j, by omega, hocc, fun e he => hmax e he⟩

theorem rfindSubAux_eq_none_iff (pat : Str) :
    ∀ (rest : Str) (i : Nat) (best : Option Nat),
    rfindSubAux pat rest i best = none ↔
      best = none ∧ ∀ e, ¬ occursAt pat rest e := by
  intro rest
  induction rest with
  | nil =>
    intro i best
    rw [rfindSubAux]
    by_cases hs : startsWith pat [] = true
    · rw [if_pos hs]
      constructor
      · intro h; cases h
      · rintro ⟨_, hnone⟩
        exact absurd ((occursAt_nil pat 0).mpr hs) (hnone 0)
    · rw [if_neg hs]
      constructor
      · intro h
        exact ⟨h, fun e hc => hs ((occursAt_nil pat e).mp hc)⟩
      · exact fun h => h.1
  | cons c cs ih =>
    intro i best
    rw [rfindSubAux]
    by_cases hs : startsWith pat (c :: cs) = true
    · simp only [hs, if_true]
      rw [ih (i + 1) (some i)]
      constructor
      · rintro ⟨h, _⟩; cases h
      · rintro ⟨_, hnone⟩
        exact absurd ((occursAt_zero pat (c :: cs)).mpr hs) (hnone 0)
    · rw [if_neg hs]
      rw [ih (i + 1) best]
      constructor
      · rintro ⟨hb, hnone⟩
        refine ⟨hb, fun e => ?_⟩
        cases e with
        | zero => rw [occursAt_zero]; exact fun h => hs h
        | succ e' => rw [occursAt_cons_succ]; exact hnone e'
      · rintro ⟨hb, hnone⟩
        refine ⟨hb, fun e => ?_⟩
        have := hnone (e + 1)
        rw [occursAt_cons_succ] at this
        exact this

theorem rfindSub_eq_none_iff (pat text : Str) :
    rfindSub pat text = none ↔ ∀ k, ¬ occursAt pat text k := by
  rw [rfindSub, rfindSubAux_eq_none_iff]
  simp

theorem findSubAux_eq_none_iff (pat : Str) : ∀ (rest : Str) (i : Nat),
    findSubAux pat rest i = none ↔ ∀ k, ¬ occursAt pat rest k := by
  intro rest
  induction rest with
  | nil =>
    intro i
    rw [findSubAux]
    by_cases hs : startsWith pat [] = true
    · rw [if_pos hs]
      constructor
      · intro h; cases h
      · intro h
        exact absurd ((occursAt_nil pat 0).mpr hs) (h 0)
    · rw [if_neg hs]
      constructor
      · intro _ k
        exact fun h => hs ((occursAt_nil pat k).mp h)
      · intro _; rfl
  | cons c cs ih =>
    intro i
    rw [findSubAux]
    by_cases hs : startsWith pat (c :: cs) = true
    · rw [if_pos hs]
      constructor
      · intro h; cases h
      · intro h
        exact absurd ((occursAt_zero pat (c :: cs)).mpr hs) (h 0)
    · rw [if_neg hs]
      rw [ih (i + 1)]
      constructor
      · intro h k
        cases k with
        | zero => rw [occursAt_zero]; exact fun hc => hs hc
        | succ k' => rw [occursAt_cons_succ]; exact h k'
      · intro h k
        have := h (k + 1)
        rw [occursAt_cons_succ] at this
        exact this

theorem findSub_eq_none_iff (pat text : Str) :
    findSub pat text = none ↔ ∀ k, ¬ occursAt pat text k :=
  findSubAux_eq_none_iff pat text 0

theorem containsSub_iff (pat text : Str) :
    containsSub pat text = true ↔ ∃ k, occursAt pat text k := by
  rw [containsSub, Option.isSome_iff_exists]
  constructor
  · rintro ⟨j, hj⟩
    exact ⟨j, ((findSub_eq_some_iff pat text j).mp hj).1⟩
  · rintro ⟨k, hk⟩
    cases hfind : findSub pat text with
    | none => exact absurd hk ((findSub_eq_none_iff pat text).mp hfind k)
    | some j => exact ⟨j, rfl⟩

/-! ## A small backtracking matcher for the `re` patterns of the sources

Only the constructs the concrete patterns use are modelled: literals,
character classes with `?`-free quantifiers (`one`, greedy `*`, greedy `+`,
lazy `*`), and capturing-group brackets.  Backtracking priority follows
Python `re`: a greedy quantifier first consumes the longest run and gives
back one character at a time; a lazy quantifier starts empty and grows;
`re.search` tries match start positions left to right.  `re.DOTALL` is
implicit (the lazy star is only used as `.*?` under `re.DOTALL`, and the
negated character classes match newlines as in Python).  `re.IGNORECASE`
is the `ci` flag (all character classes used are case-symmetric, so only
literals consult it). -/

inductive Quant where
  | one
  | starGreedy
  | starLazy
  | plusGreedy

inductive Tok where
  | lit (s : Str)
  | cls (p : Char → Bool) (q : Quant)
  | gopen
  | gclose

/-- Character comparison, optionally case-insensitive. -/
def chEq (ci : Bool) (a b : Char) : Bool :=
  if ci then pyLowerChar a == pyLowerChar b else a == b

/-- Does `rest` start with literal `s` (under flag `ci`)? -/
def litAt (ci : Bool) : Str → Str → Bool
  | [], _ => true
  | _ :: _, [] => false
  | p :: ps, t :: ts => chEq ci p t && litAt ci ps ts

/-- Length of the maximal run of characters satisfying `p`. -/
def countRun (p : Char → Bool) (s : Str) : Nat := (s.takeWhile p).length

/-- Greedy backtracking: try `f j` for `j = k, k-1, ..., 0` and return the
first success. -/
def downFrom (f : Nat → Option α) : Nat → Option α
  | 0 => f 0
  | j + 1 =>
    match f (j + 1) with
    | some r => some r
    | none => downFrom f j

/-- Greedy backtracking for `+`: try `f j` for `j = k, k-1, ..., 1`. -/
def downTo1 (f : Nat → Option α) : Nat → Option α
  | 0 => none
  | j + 1 =>
    match f (j + 1) with
    | some r => some r
    | none => downTo1 f j

/-- Lazy expansion: try `f j`, `f (j+1)`, ..., `f (j+c)` and return the
first success. -/
def upCount (f : Nat → Option α) : Nat → Nat → Option α
  | 0, j => f j
  | c + 1, j =>
    match f j with
    | some r => some r
    | none => upCount f c (j + 1)

/-- Match the token list against `rest`.  `pos` counts the characters
consumed so far, `gs` is the stack of open groups (the suffix and the
consumed count at the opening bracket), `caps` the completed captures.
Returns the suffix after the match plus the captures.  Backtracking
priority follows Python `re` (an earlier quantifier backtracks only after
the continuation has exhausted its options). -/
def matchToks (ci : Bool) : List Tok → Str → List (Str × Nat) → List Str →
    Nat → Option (Str × List Str)
  | [], rest, _, caps, _ => some (rest, caps)
  | Tok.lit s :: ts, rest, gs, caps, pos =>
    if litAt ci s rest then
      matchToks ci ts (rest.drop s.length) gs caps (pos + s.length)
    else none
  | Tok.cls p q :: ts, rest, gs, caps, pos =>
    match q with
    | Quant.one =>
      match rest with
      | [] => none
      | c :: rs => if p c then matchToks ci ts rs gs caps (pos + 1) else none
    | Quant.starGreedy =>
      downFrom (fun j => matchToks ci ts (rest.drop j) gs caps (pos + j))
        (countRun p rest)
    | Quant.plusGreedy =>
      let k := countRun p rest
      if k == 0 then none
      else downTo1 (fun j => matchToks ci ts (rest.drop j) gs caps (pos + j)) k
    | Quant.starLazy =>
      upCount (fun j => matchToks ci ts (rest.drop j) gs caps (pos + j))
        (countRun p rest) 0
  | Tok.gopen :: ts, rest, gs, caps, pos =>
    matchToks ci ts rest ((rest, pos) :: gs) caps pos
  | Tok.gclose :: ts, rest, gs, caps, pos =>
    match gs with
    | [] => none
    | (g, gpos) :: gs2 =>
      matchToks ci ts rest gs2 (caps ++ [g.take (pos - gpos)]) pos

/-- `re.search`: try a match at each start position, left to right;
returns the captures of the first (leftmost) match together with the
suffix following the match. -/
def searchFrom (ci : Bool) (toks : List Tok) : Str → Option (List Str × Str)
  | [] =>
    match matchToks ci toks [] [] [] 0 with
    | some (rest2, caps) => some (caps, rest2)
    | none => none
  | c :: rs =>
    match matchToks ci toks (c :: rs) [] [] 0 with
    | some (rest2, caps) => some (caps, rest2)
    | none => searchFrom ci toks rs

/-- `re.search(...)` returning `match.group(1)`. -/
def searchGroup1 (ci : Bool) (toks : List Tok) (text : Str) : Option Str :=
  match searchFrom ci toks text with
  | some (g :: _, _) => some g
  | _ => none

/-- `re.search(...)` returning `(match.group(1), match.group(2))`. -/
def searchGroup2 (ci : Bool) (toks : List Tok) (text : Str) :
    Option (Str × Str) :=
  match searchFrom ci toks text with
  | some (g1 :: g2 :: _, _) => some (g1, g2)
  | _ => none

/-- Helper for `findAllG1`: repeated non-overlapping searches (the fuel is
at least the text length plus one, enough because every pattern used with
it consumes at least one character per match). -/
def findAllAux (ci : Bool) (toks : List Tok) : Nat → Str → List Str
  | 0, _ => []
  | fuel + 1, rest =>
    match searchFrom ci toks rest with
    | none => []
    | some (caps, rest2) => (caps.headD []) :: findAllAux ci toks fuel rest2

/-- `re.findall` for a single-group pattern: the list of group-1 captures
of the successive non-overlapping matches. -/
def findAllG1 (ci : Bool) (toks : List Tok) (text : Str) : List Str :=
  findAllAux ci toks (text.length + 1) text

/-! ### Engine facts used by the theorems -/

theorem litAt_false_eq_startsWith (s : Str) : ∀ rest : Str,
    litAt false s rest = startsWith s rest := by
  induction s with
  | nil => intro rest; rfl
  | cons p ps ih =>
    intro rest
    cases rest with
    | nil => rfl
    | cons t ts => simp [litAt, startsWith, chEq, ih]

theorem matchToks_lit_some {ci : Bool} {s : Str}
    {ts : List Tok} {rest : Str} {gs : List (Str × Nat)} {caps : List Str}
    {pos : Nat} {r : Str × List Str}
    (h : matchToks ci (Tok.lit s :: ts) rest gs caps pos = some r) :
    litAt ci s rest = true := by
  rw [matchToks] at h
  by_cases hl : litAt ci s rest = true
  · exact hl
  · rw [if_neg hl] at h; cases h

theorem searchFrom_some {ci : Bool} {toks : List Tok} {r : List Str × Str} :
    ∀ {rest : Str}, searchFrom ci toks rest = some r →
      ∃ i rr, matchToks ci toks (rest.drop i) [] [] 0 = some rr := by
  intro rest
  induction rest with
  | nil =>
    intro h
    rw [searchFrom] at h
    cases hm : matchToks ci toks [] [] [] 0 with
    | some rr => exact ⟨0, rr, hm⟩
    | none => rw [hm] at h; simp at h
  | cons c cs ih =>
    intro h
    rw [searchFrom] at h
    cases hm : matchToks ci toks (c :: cs) [] [] 0 with
    | some rr => exact ⟨0, rr, hm⟩
    | none =>
      rw [hm] at h
      simp only [] at h
      obtain ⟨i, rr, hrr⟩ := ih h
      exact ⟨i + 1, rr, by simpa using hrr⟩

/-- A search for a pattern that begins with a (case-sensitive) literal can
only succeed if that literal occurs somewhere in the text. -/
theorem searchFrom_lit_some_occurs {s : Str} {ts : List Tok}
    {text : Str} {r : List Str × Str}
    (h : searchFrom false (Tok.lit s :: ts) text = some r) :
    ∃ i, occursAt s text i := by
  obtain ⟨i, rr, hrr⟩ := searchFrom_some h
  refine ⟨i, ?_⟩
  have := matchToks_lit_some hrr
  rw [litAt_false_eq_startsWith] at this
  exact this

/-! ## Pattern transcriptions (from `utils.py`) -/

/-- `.` under `re.DOTALL`. -/
def anyCh : Char → Bool := fun _ => true

/-- `[^>]`. -/
def notGt : Char → Bool := fun c => !(c == '>')

/-- `[^<]`. -/
def notLt : Char → Bool := fun c => !(c == '<')

/-- `[^-]`. -/
def notDash : Char → Bool := fun c => !(c == '-')

/-- `['"]` (a quote character). -/
def isQuote : Char → Bool := fun c => c == Char.ofNat 39 || c == '"'

/-- `[^'"]`. -/
def notQuote : Char → Bool := fun c => !(isQuote c)

/-- Pattern 1 of `extract_html_from_response` (`re.DOTALL`). -/
def patFence1 : List Tok :=
  [Tok.lit ("```html\n".data), Tok.gopen, Tok.cls anyCh Quant.starLazy,
   Tok.gclose, Tok.lit ("\n```".data)]

/-- Pattern 2 of `extract_html_from_response` (`re.DOTALL`). -/
def patFence2 : List Tok :=
  [Tok.lit ("```html".data), Tok.gopen, Tok.cls anyCh Quant.starLazy,
   Tok.gclose, Tok.lit ("```".data)]

/-- Pattern 3 of `extract_html_from_response` (`re.DOTALL`). -/
def patFence3 : List Tok :=
  [Tok.lit ("```\n".data), Tok.gopen, Tok.lit ("<!DOCTYPE".data),
   Tok.cls anyCh Quant.starLazy, Tok.lit ("</html>".data), Tok.gclose,
   Tok.lit ("\n```".data)]

/-- Pattern 4 of `extract_html_from_response` (`re.DOTALL`). -/
def patFence4 : List Tok :=
  [Tok.lit ("```".data), Tok.gopen, Tok.lit ("<!DOCTYPE".data),
   Tok.cls anyCh Quant.starLazy, Tok.lit ("</html>".data), Tok.gclose,
   Tok.lit ("```".data)]

/-- Subject pattern (a): `<title[^>]*>(.*?)</title>`. -/
def patTitle : List Tok :=
  [Tok.lit ("<title".data), Tok.cls notGt Quant.starGreedy,
   Tok.lit (">".data), Tok.gopen, Tok.cls anyCh Quant.starLazy, Tok.gclose,
   Tok.lit ("</title>".data)]

/-- Subject pattern (b): an HTML comment declaring the subject. -/
def patSubjComment : List Tok :=
  [Tok.lit ("<!--".data), Tok.cls pyIsSpace Quant.starGreedy,
   Tok.lit ("Subject:".data), Tok.cls pyIsSpace Quant.starGreedy,
   Tok.gopen, Tok.cls notDash Quant.plusGreedy, Tok.gclose,
   Tok.cls pyIsSpace Quant.starGreedy, Tok.lit ("-->".data)]

/-- Subject pattern (c): a `meta` tag with a `subject` attribute. -/
def patMeta : List Tok :=
  [Tok.lit ("<meta".data), Tok.cls pyIsSpace Quant.plusGreedy,
   Tok.lit ("name=".data), Tok.cls isQuote Quant.one,
   Tok.lit ("subject".data), Tok.cls isQuote Quant.one,
   Tok.cls notGt Quant.starGreedy, Tok.lit ("content=".data),
   Tok.cls isQuote Quant.one, Tok.gopen, Tok.cls notQuote Quant.plusGreedy,
   Tok.gclose, Tok.cls isQuote Quant.one]

/-- Sender pattern 1: a comment with spaced `From: Name <email>`. -/
def patSender1 : List Tok :=
  [Tok.lit ("<!--".data), Tok.cls pyIsSpace Quant.starGreedy,
   Tok.lit ("From:".data), Tok.cls pyIsSpace Quant.starGreedy,
   Tok.gopen, Tok.cls notLt Quant.plusGreedy, Tok.gclose,
   Tok.cls pyIsSpace Quant.starGreedy, Tok.lit ("<".data),
   Tok.gopen, Tok.cls notGt Quant.plusGreedy, Tok.gclose,
   Tok.lit (">".data), Tok.cls pyIsSpace Quant.starGreedy,
   Tok.lit ("-->".data)]

/-- Sender pattern 2: the same comment shape with `Sender:`. -/
def patSender2 : List Tok :=
  [Tok.lit ("<!--".data), Tok.cls pyIsSpace Quant.starGreedy,
   Tok.lit ("Sender:".data), Tok.cls pyIsSpace Quant.starGreedy,
   Tok.gopen, Tok.cls notLt Quant.plusGreedy, Tok.gclose,
   Tok.cls pyIsSpace Quant.starGreedy, Tok.lit ("<".data),
   Tok.gopen, Tok.cls notGt Quant.plusGreedy, Tok.gclose,
   Tok.lit (">".data), Tok.cls pyIsSpace Quant.starGreedy,
   Tok.lit ("-->".data)]

/-- Sender pattern 3: the comment shape without a space before `<`. -/
def patSender3 : List Tok :=
  [Tok.lit ("<!--".data), Tok.cls pyIsSpace Quant.starGreedy,
   Tok.lit ("From:".data), Tok.cls pyIsSpace Quant.starGreedy,
   Tok.gopen, Tok.cls notLt Quant.plusGreedy, Tok.gclose,
   Tok.lit ("<".data),
   Tok.gopen, Tok.cls notGt Quant.plusGreedy, Tok.gclose,
   Tok.lit (">".data), Tok.cls pyIsSpace Quant.starGreedy,
   Tok.lit ("-->".data)]

/-- Sender pattern 4: an in-content `From: Name <email>`. -/
def patSender4 : List Tok :=
  [Tok.lit ("From:".data), Tok.cls pyIsSpace Quant.starGreedy,
   Tok.gopen, Tok.cls notLt Quant.plusGreedy, Tok.gclose,
   Tok.cls pyIsSpace Quant.starGreedy, Tok.lit ("<".data),
   Tok.gopen, Tok.cls notGt Quant.plusGreedy, Tok.gclose,
   Tok.lit (">".data)]

/-- The `href` attribute pattern of `validate_html_safety` (`re.IGNORECASE`). -/
def patHref : List Tok :=
  [Tok.lit ("href=".data), Tok.cls isQuote Quant.one, Tok.gopen,
   Tok.cls notQuote Quant.plusGreedy, Tok.gclose, Tok.cls isQuote Quant.one]

/-! ## `re.sub` and `str.split` helpers -/

/-- `re.sub(r'<[^>]+>', repl, s)`: replace every (non-overlapping, leftmost)
HTML tag by `repl`.  The fuel argument is at least `|s| + 1`, which the
wrappers below supply. -/
def subTags (repl : Str) : Nat → Str → Str
  | 0, s => s
  | _ + 1, [] => []
  | fuel + 1, c :: rest =>
    if c == '<' then
      let run := countRun (fun ch => !(ch == '>')) rest
      if run == 0 then c :: subTags repl fuel rest
      else
        match rest.drop run with
        | ch :: rs2 =>
          if ch == '>' then repl ++ subTags repl fuel rs2
          else c :: subTags repl fuel rest
        | [] => c :: subTags repl fuel rest
    else c :: subTags repl fuel rest

/-- `re.sub(r'<[^>]+>', repl, s)`. -/
def subTagsTop (repl : Str) (s : Str) : Str := subTags repl (s.length + 1) s

/-- `re.sub(r'\s+', ' ', s)`: collapse whitespace runs to single spaces. -/
def collapseWs : Nat → Str → Str
  | 0, s => s
  | _ + 1, [] => []
  | fuel + 1, c :: rest =>
    if pyIsSpace c then ' ' :: collapseWs fuel (rest.dropWhile pyIsSpace)
    else c :: collapseWs fuel rest

/-- `re.sub(r'\s+', ' ', s)`. -/
def collapseWsTop (s : Str) : Str := collapseWs (s.length + 1) s

/-- `str.split()` with no argument: maximal non-whitespace runs. -/
def pyWords : Nat → Str → List Str
  | 0, _ => []
  | fuel + 1, s =>
    let s2 := s.dropWhile pyIsSpace
    match s2 with
    | [] => []
    | _ :: _ =>
      s2.takeWhile (fun c => !(pyIsSpace c)) ::
        pyWords fuel (s2.dropWhile (fun c => !(pyIsSpace c)))

/-- `str.split()`. -/
def pyWordsTop (s : Str) : List Str := pyWords (s.length + 1) s

/-! ## `HTMLExtractor.extract_html_from_response` (`utils.py` 16-68) -/

/-- The start-marker loop of "Method 2": the minimum found position over
`<!DOCTYPE`, `<html`, `<HTML` (in the loop's accumulator style). -/
def foldMarker (text : Str) (acc : Option Nat) (marker : Str) : Option Nat :=
  match findSub marker text with
  | none => acc
  | some pos =>
    match acc with
    | none => some pos
    | some s => if pos < s then some pos else some s

/-- The computed `start_pos` of "Method 2". -/
def minStart (text : Str) : Option Nat :=
  [("<!DOCTYPE".data), ("<html".data), ("<HTML".data)].foldl (foldMarker text) none

/-- The computed `end_pos` of "Method 2": the loop breaks at the first end
marker that is found at all, so `</HTML>` is consulted only when `</html>`
does not occur. -/
def endPos (text : Str) : Option Nat :=
  match rfindSub ("</html>".data) text with
  | some pos => some (pos + ("</html>".data).length)
  | none =>
    match rfindSub ("</HTML>".data) text with
    | some pos => some (pos + ("</HTML>".data).length)
    | none => none

/-- `HTMLExtractor.extract_html_from_response`: the four fenced-code-block
patterns in order, then direct HTML detection, else `None`. -/
def extract_html_from_response (text : Str) : Option Str :=
  match searchGroup1 false patFence1 text with
  | some g => some (strip g)
  | none =>
  match searchGroup1 false patFence2 text with
  | some g => some (strip g)
  | none =>
  match searchGroup1 false patFence3 text with
  | some g => some (strip g)
  | none =>
  match searchGroup1 false patFence4 text with
  | some g => some (strip g)
  | none =>
  if containsSub ("<!DOCTYPE".data) text || containsSub ("<html".data) (pyLower text) then
    match minStart text with
    | none => none
    | some start_pos =>
      match endPos text with
      | none => none
      | some end_pos => some (strip (sliceStr text start_pos end_pos))
  else none

/-! ## `EmailComponentExtractor` (`utils.py` 70-173) -/

structure EmailComponents where
  subject : Str
  sender_name : Str
  sender_email : Str
deriving DecidableEq

/-- The ordered subject-pattern loop (all patterns use
`re.IGNORECASE | re.DOTALL`). -/
def subjectSearch (html : Str) : Option Str :=
  match searchGroup1 true patTitle html with
  | some g => some g
  | none =>
  match searchGroup1 true patSubjComment html with
  | some g => some g
  | none => searchGroup1 true patMeta html

/-- The ordered sender-pattern loop (no `re` flags). -/
def senderSearch (html : Str) : Option (Str × Str) :=
  match searchGroup2 false patSender1 html with
  | some r => some r
  | none =>
  match searchGroup2 false patSender2 html with
  | some r => some r
  | none =>
  match searchGroup2 false patSender3 html with
  | some r => some r
  | none => searchGroup2 false patSender4 html

/-- The `industry_mappings` table of `_generate_realistic_sender`. -/
def industry_mappings : List (List Str × Str × Str) :=
  [(["bank".data, "account".data, "financial".data, "credit".data],
    "Security Department".data, "security@fake-firstnational-bank.com".data),
   (["health".data, "medical".data, "patient".data, "clinic".data],
    "Patient Services".data, "admin@fake-healthsystems.org".data),
   (["order".data, "shipping".data, "delivery".data, "purchase".data],
    "Customer Service".data, "orders@fake-retailservices.com".data),
   (["microsoft".data, "google".data, "tech".data, "software".data, "cloud".data],
    "Account Security".data, "noreply@fake-techsupport.com".data),
   (["government".data, "irs".data, "tax".data, "official".data],
    "Official Notice".data, "notifications@fake-government-alerts.gov".data),
   (["education".data, "university".data, "student".data, "academic".data],
    "IT Services".data, "support@fake-university-systems.edu".data),
   (["insurance".data, "policy".data, "claim".data, "premium".data],
    "Claims Department".data, "claims@fake-insurance-services.com".data)]

/-- `EmailComponentExtractor._generate_realistic_sender`: first keyword
group with a hit in the lower-cased document wins; otherwise the generic
pair. -/
def generate_realistic_sender (html : Str) (components : EmailComponents) :
    EmailComponents :=
  let content_lower := pyLower html
  match industry_mappings.find?
      (fun m => m.1.any (fun word => containsSub word content_lower)) with
  | some m => { components with sender_name := m.2.1, sender_email := m.2.2 }
  | none =>
    { components with sender_name := "Support Team".data,
                      sender_email := "support@fake-secureservices.net".data }

/-- `EmailComponentExtractor.extract_email_components`. -/
def extract_email_components (html : Str) : EmailComponents :=
  let components : EmailComponents :=
    ⟨"Generated Phishing Email".data, "Security Team".data,
     "security@example.com".data⟩
  let components :=
    match subjectSearch html with
    | some g => { components with
                  subject := (subTagsTop ([] : Str) (strip g)).take 100 }
    | none => components
  let components :=
    match senderSearch html with
    | some (g1, g2) => { components with sender_name := strip g1,
                                         sender_email := strip g2 }
    | none => components
  if components.sender_email == "security@example.com".data then
    generate_realistic_sender html components
  else components

/-! ## `ContentAnalyzer.calculate_word_count` (`utils.py` 178-196) -/

def calculate_word_count (html : Str) : Nat :=
  let text := subTagsTop (" ".data) html
  let text := strip (collapseWsTop text)
  (pyWordsTop text).length

/-! ## `ValidationHelper.validate_html_safety` (`utils.py` 536-566) -/

def fake_markers : List Str :=
  ["fake-".data, "phishing-".data, "test-".data, "training-".data]

def real_companies : List Str :=
  ["microsoft.com".data, "google.com".data, "amazon.com".data,
   "apple.com".data, "facebook.com".data]

/-- The text of the `f"Contains potentially real URLs: {real_domains}"`
issue.  The exact rendering of the Python list is abstracted as a plain
concatenation: no claim inspects this message's text. -/
def urlIssueText (real_domains : List Str) : Str :=
  ("Contains potentially real URLs: ".data) ++ real_domains.foldl (· ++ ·) []

def validate_html_safety (html : Str) : Bool × List Str :=
  let issues1 : List Str :=
    if containsSub ("For training only".data) html then []
    else [("Missing training disclaimer".data)]
  let urls := findAllG1 true patHref html
  let real_domains := urls.filter
    (fun url => !(fake_markers.any (fun fake => containsSub fake (pyLower url))))
  let issues2 : List Str :=
    if real_domains.isEmpty then [] else [urlIssueText real_domains]
  let issues3 : List Str :=
    (real_companies.filter (fun company => containsSub company (pyLower html))).map
      (fun company => ("Contains reference to real company: ".data) ++ company)
  let issues := issues1 ++ issues2 ++ issues3
  (issues.length == 0, issues)

/-! ## Enumerations (`models.py`) -/

inductive ScenarioType where
  | PASSWORD_RESET | INVOICE_OVERDUE | ACCOUNT_LOCK | PRIZE_NOTIFICATION
  | URGENT_DOCUMENT_REVIEW | SECURITY_ALERT | SYSTEM_MAINTENANCE | PAYMENT_FAILED
deriving DecidableEq, Fintype

def ScenarioType.value : ScenarioType → String
  | PASSWORD_RESET => "Password Reset"
  | INVOICE_OVERDUE => "Invoice Overdue"
  | ACCOUNT_LOCK => "Account Lock"
  | PRIZE_NOTIFICATION => "Prize Notification"
  | URGENT_DOCUMENT_REVIEW => "Urgent Document Review"
  | SECURITY_ALERT => "Security Alert"
  | SYSTEM_MAINTENANCE => "System Maintenance"
  | PAYMENT_FAILED => "Payment Failed"

inductive TargetIndustry where
  | BANKING | ONLINE_RETAIL | CLOUD_SERVICE | SOCIAL_MEDIA | SHIPPING_COMPANY
  | HEALTHCARE | GOVERNMENT | EDUCATION | TECHNOLOGY | INSURANCE | RETAIL
deriving DecidableEq, Fintype

def TargetIndustry.value : TargetIndustry → String
  | BANKING => "Banking"
  | ONLINE_RETAIL => "Online Retail"
  | CLOUD_SERVICE => "Cloud Service"
  | SOCIAL_MEDIA => "Social Media"
  | SHIPPING_COMPANY => "Shipping Company"
  | HEALTHCARE => "Healthcare"
  | GOVERNMENT => "Government"
  | EDUCATION => "Education"
  | TECHNOLOGY => "Technology"
  | INSURANCE => "Insurance"
  | RETAIL => "Retail"

inductive UrgencyLevel where
  | NORMAL | HIGH
deriving DecidableEq, Fintype

def UrgencyLevel.value : UrgencyLevel → String
  | NORMAL => "Normal"
  | HIGH => "High"

inductive ToneStyle where
  | FORMAL | CASUAL | URGENT | INFORMATIVE
deriving DecidableEq, Fintype

def ToneStyle.value : ToneStyle → String
  | FORMAL => "Formal"
  | CASUAL => "Casual"
  | URGENT => "Urgent"
  | INFORMATIVE => "Informative"

inductive Language where
  | ENGLISH | SPANISH | FRENCH | GERMAN | CHINESE | JAPANESE
deriving DecidableEq, Fintype

def Language.value : Language → String
  | ENGLISH => "English"
  | SPANISH => "Spanish"
  | FRENCH => "French"
  | GERMAN => "German"
  | CHINESE => "Chinese"
  | JAPANESE => "Japanese"

inductive PhishingTactic where
  | CREDENTIAL_HARVESTING | INVOICE_FRAUD | ACCOUNT_TAKEOVER
  | PRIZE_SCAM | TECH_SUPPORT | EXECUTIVE_IMPERSONATION
deriving DecidableEq, Fintype

def PhishingTactic.value : PhishingTactic → String
  | CREDENTIAL_HARVESTING => "credential_harvesting"
  | INVOICE_FRAUD => "invoice_fraud"
  | ACCOUNT_TAKEOVER => "account_takeover"
  | PRIZE_SCAM => "prize_scam"
  | TECH_SUPPORT => "tech_support"
  | EXECUTIVE_IMPERSONATION => "executive_impersonation"

/-- `ScenarioType(s)` of the Python enum class, as an `Option` (a
`ValueError` becomes `none`); likewise for the other enumerations. -/
def ScenarioType.fromValue? (s : String) : Option ScenarioType :=
  if s == "Password Reset" then some PASSWORD_RESET
  else if s == "Invoice Overdue" then some INVOICE_OVERDUE
  else if s == "Account Lock" then some ACCOUNT_LOCK
  else if s == "Prize Notification" then some PRIZE_NOTIFICATION
  else if s == "Urgent Document Review" then some URGENT_DOCUMENT_REVIEW
  else if s == "Security Alert" then some SECURITY_ALERT
  else if s == "System Maintenance" then some SYSTEM_MAINTENANCE
  else if s == "Payment Failed" then some PAYMENT_FAILED
  else none

def TargetIndustry.fromValue? (s : String) : Option TargetIndustry :=
  if s == "Banking" then some BANKING
  else if s == "Online Retail" then some ONLINE_RETAIL
  else if s == "Cloud Service" then some CLOUD_SERVICE
  else if s == "Social Media" then some SOCIAL_MEDIA
  else if s == "Shipping Company" then some SHIPPING_COMPANY
  else if s == "Healthcare" then some HEALTHCARE
  else if s == "Government" then some GOVERNMENT
  else if s == "Education" then some EDUCATION
  else if s == "Technology" then some TECHNOLOGY
  else if s == "Insurance" then some INSURANCE
  else if s == "Retail" then some RETAIL
  else none

def UrgencyLevel.fromValue? (s : String) : Option UrgencyLevel :=
  if s == "Normal" then some NORMAL
  else if s == "High" then some HIGH
  else none

def ToneStyle.fromValue? (s : String) : Option ToneStyle :=
  if s == "Formal" then some FORMAL
  else if s == "Casual" then some CASUAL
  else if s == "Urgent" then some URGENT
  else if s == "Informative" then some INFORMATIVE
  else none

def Language.fromValue? (s : String) : Option Language :=
  if s == "English" then some ENGLISH
  else if s == "Spanish" then some SPANISH
  else if s == "French" then some FRENCH
  else if s == "German" then some GERMAN
  else if s == "Chinese" then some CHINESE
  else if s == "Japanese" then some JAPANESE
  else none

def PhishingTactic.fromValue? (s : String) : Option PhishingTactic :=
  if s == "credential_harvesting" then some CREDENTIAL_HARVESTING
  else if s == "invoice_fraud" then some INVOICE_FRAUD
  else if s == "account_takeover" then some ACCOUNT_TAKEOVER
  else if s == "prize_scam" then some PRIZE_SCAM
  else if s == "tech_support" then some TECH_SUPPORT
  else if s == "executive_impersonation" then some EXECUTIVE_IMPERSONATION
  else none

/-! ## `PhishingPrompts.get_fallback_sender_info` (`prompts.py` 156-183) -/

def get_fallback_sender_info (industry : String) : String × String :=
  if industry == "Banking" then ("Security Department", "security@fake-firstnational-alerts.com")
  else if industry == "Healthcare" then ("Patient Services", "admin@fake-healthpartners.org")
  else if industry == "Online Retail" then ("Customer Service", "orders@fake-ecommerce-orders.com")
  else if industry == "Technology" then ("Account Security", "noreply@fake-techsupport.com")
  else if industry == "Government" then ("Official Notice", "notifications@fake-government-alerts.gov")
  else if industry == "Education" then ("IT Services", "support@fake-university-systems.edu")
  else if industry == "Insurance" then ("Claims Department", "claims@fake-insurance-services.com")
  else if industry == "Retail" then ("Customer Support", "service@fake-retailsupport.net")
  else if industry == "Cloud Service" then ("Security Team", "alerts@fake-cloudsecurity.org")
  else if industry == "Social Media" then ("Account Safety", "security@fake-socialmedia.com")
  else if industry == "Shipping Company" then ("Delivery Notice", "tracking@fake-shipping.com")
  else ("Support Team", "support@fake-secureservices.net")

/-! ## `TemplateGenerator.create_fallback_template` (`utils.py` 336-490)

The f-string is embedded as the literal fragments `fbPart0` ... `fbPart10`
interleaved with its interpolations, in source order. -/

/-- Literal fragment 0 of the fallback-template f-string. -/
def fbPart0 : String :=
  "<!DOCTYPE html>\n<html lang=\"en\">\n<head>\n    <meta charset=\"UTF-8\">\n    <meta name=\"viewport\" content=\"width=device-width, initial-scale=1.0\">\n    <title>Urgent: "

/-- Sub-literal `fbPart1a` of fragment 1 of the fallback f-string. -/
def fbPart1a : String :=
  " Required</title>\n    <style>\n        body \x7b \n            font-family: \x27Segoe UI\x27, Tahoma, Geneva, Verdana, sans-serif; \n            margin: 0; \n            padding: 20px; \n            background-color: #f5f5f5; \n            line-height: 1.6;\n        \x7d\n        .container \x7b \n            max-width: 600px; \n            margin: 0 auto; \n            background: white; \n            padding: 0; \n"

/-- Sub-literal `fbPart1b` of fragment 1 of the fallback f-string. -/
def fbPart1b : String :=
  "            border-radius: 8px; \n            box-shadow: 0 2px 10px rgba(0,0,0,0.1);\n        \x7d\n        .header \x7b \n            background: linear-gradient(135deg, #1f4e79 0%, #2c5aa0 100%); \n            color: white; \n            padding: 20px; \n            text-align: center; \n            border-radius: 8px 8px 0 0;\n        \x7d\n        .content \x7b\n            padding: 30px;\n        \x7d\n"

/-- Sub-literal `fbPart1c` of fragment 1 of the fallback f-string. -/
def fbPart1c : String :=
  "        .alert-box \x7b\n            background-color: #fff3cd;\n            border-left: 4px solid #ffc107;\n            padding: 15px;\n            margin: 20px 0;\n            border-radius: 4px;\n        \x7d\n        .button \x7b \n            display: inline-block;\n            background: linear-gradient(135deg, #dc3545 0%, #c82333 100%); \n            color: white; \n            padding: 14px 28px; \n"

/-- Sub-literal `fbPart1d` of fragment 1 of the fallback f-string. -/
def fbPart1d : String :=
  "            text-decoration: none; \n            border-radius: 6px; \n            font-weight: bold;\n            margin: 20px 0;\n            box-shadow: 0 2px 4px rgba(0,0,0,0.2);\n            transition: all 0.3s ease;\n        \x7d\n        .button:hover \x7b\n            background: linear-gradient(135deg, #c82333 0%, #a71e2a 100%);\n            transform: translateY(-2px);\n        \x7d\n        .footer \x7b \n"

/-- Sub-literal `fbPart1e` of fragment 1 of the fallback f-string. -/
def fbPart1e : String :=
  "            background-color: #f8f9fa;\n            padding: 20px; \n            text-align: center; \n            font-size: 12px; \n            color: #6c757d;\n            border-radius: 0 0 8px 8px;\n            border-top: 1px solid #dee2e6;\n        \x7d\n        .urgent \x7b\n            color: #dc3545;\n            font-weight: bold;\n        \x7d\n        .company-logo \x7b\n            font-size: 24px;\n            font-weight: bold;\n            margin-bottom: 5px;\n        \x7d\n    </style>\n</head>\n<body>\n    "

/-- Sub-literal `fbPart1f` of fragment 1 of the fallback f-string. -/
def fbPart1f : String :=
  "<!-- From: "

/-- Literal fragment 1 of the fallback-template f-string (the
concatenation of its sub-literals). -/
def fbPart1 : String :=
  fbPart1a ++ fbPart1b ++ fbPart1c ++ fbPart1d ++ fbPart1e ++ fbPart1f

/-- Literal fragment 2 of the fallback-template f-string. -/
def fbPart2 : String :=
  " <"

/-- Sub-literal `fbPart3a` of fragment 3 of the fallback f-string. -/
def fbPart3a : String :=
  "> -->"

/-- Sub-literal `fbPart3b` of fragment 3 of the fallback f-string. -/
def fbPart3b : String :=
  "\n    <!-- "

/-- Sub-literal `fbPart3c` of fragment 3 of the fallback f-string. -/
def fbPart3c : String :=
  "For training only – not a real phishing email -->\n    \n    <div class=\"container\">\n        <div class=\"header\">\n            <div class=\"company-logo\">"

/-- Literal fragment 3 of the fallback-template f-string (the
concatenation of its sub-literals). -/
def fbPart3 : String :=
  fbPart3a ++ fbPart3b ++ fbPart3c

/-- Literal fragment 4 of the fallback-template f-string. -/
def fbPart4 : String :=
  "</div>\n            <p>Security & Compliance Department</p>\n        </div>\n        \n        <div class=\"content\">\n            <h2 class=\"urgent\">⚠️ Urgent: "

/-- Sub-literal `fbPart5a` of fragment 5 of the fallback f-string. -/
def fbPart5a : String :=
  " Required</h2>\n            \n            <p>Dear Valued Customer,</p>\n            \n            <p>We have detected unusual activity on your account that requires immediate verification. \n            To protect your account security and maintain compliance with our security policies, \n            please take action within the next <strong>24 hours</strong>.</p>\n            \n"

/-- Sub-literal `fbPart5b` of fragment 5 of the fallback f-string. -/
def fbPart5b : String :=
  "            <div class=\"alert-box\">\n                <strong>🔒 Security Notice:</strong> Your account access has been temporarily restricted \n                due to suspicious activity detected from an unrecognized device.\n            </div>\n            \n            <p><strong>Action Required:</strong> Click the button below to verify your account information \n            and restore full access to your services.</p>\n            \n            <div style=\"text-align: center;\">\n                <a "

/-- Sub-literal `fbPart5c` of fragment 5 of the fallback f-string. -/
def fbPart5c : String :=
  "href=\"http://fake-"

/-- Literal fragment 5 of the fallback-template f-string (the
concatenation of its sub-literals). -/
def fbPart5 : String :=
  fbPart5a ++ fbPart5b ++ fbPart5c

/-- Sub-literal `fbPart6a` of fragment 6 of the fallback f-string. -/
def fbPart6a : String :=
  "-verification.com/verify\""

/-- Sub-literal `fbPart6b` of fragment 6 of the fallback f-string. -/
def fbPart6b : String :=
  " class=\"button\">\n                    🔐 Verify Account Now\n                </a>\n            </div>\n            \n            <p><strong class=\"urgent\">Important:</strong> If you do not complete this verification \n            within 24 hours, your account may be permanently suspended for security reasons.</p>\n            \n"

/-- Sub-literal `fbPart6c` of fragment 6 of the fallback f-string. -/
def fbPart6c : String :=
  "            <p>This verification process is mandatory and must be completed to ensure the safety \n            of your personal information and account assets.</p>\n            \n            <p>Thank you for your immediate attention to this critical security matter.</p>\n            \n            <p>Best regards,<br>\n            <strong>"

/-- Literal fragment 6 of the fallback-template f-string (the
concatenation of its sub-literals). -/
def fbPart6 : String :=
  fbPart6a ++ fbPart6b ++ fbPart6c

/-- Literal fragment 7 of the fallback-template f-string. -/
def fbPart7 : String :=
  "</strong><br>\n            "

/-- Literal fragment 8 of the fallback-template f-string. -/
def fbPart8 : String :=
  " Security Team</p>\n        </div>\n        \n        <div class=\"footer\">\n            <p>This is an automated security message. Please do not reply to this email.</p>\n            <p>"

/-- Literal fragment 9 of the fallback-template f-string. -/
def fbPart9 : String :=
  " | Security Department | Compliance Division</p>\n            <p>© 2024 "

/-- Sub-literal `fbPart10a` of fragment 10 of the fallback f-string. -/
def fbPart10a : String :=
  ". All rights reserved.</p>\n            <hr style=\"border: none; border-top: 1px solid #dee2e6; margin: 15px 0;\">\n            <p><em><strong>Training Notice:</strong> This is a simulated phishing email for cybersecurity training purposes only.</em></p>\n        </div>\n    </div>\n</body>\n"

/-- Sub-literal `fbPart10b` of fragment 10 of the fallback f-string. -/
def fbPart10b : String :=
  "</html>"

/-- Literal fragment 10 of the fallback-template f-string (the
concatenation of its sub-literals). -/
def fbPart10 : String :=
  fbPart10a ++ fbPart10b

/-- `target_industry.lower().replace(' ', '')` of the fallback href. -/
def lowerNoSpace (s : String) : String :=
  String.mk ((pyLower s.data).filter (fun c => !(c == ' ')))

/-- `TemplateGenerator.create_fallback_template`.  The source receives the
request as a dict and reads only the `scenario_type` and `target_industry`
keys (with defaults that the service-level caller always overrides); those
two fields are the parameters here. -/
def create_fallback_template (scenario_type target_industry : String) : String :=
  let si := get_fallback_sender_info target_industry
  let sender_name := si.1
  let sender_email := si.2
  fbPart0 ++ scenario_type ++ fbPart1 ++ sender_name ++ fbPart2 ++ sender_email
    ++ fbPart3 ++ target_industry ++ fbPart4 ++ scenario_type ++ fbPart5
    ++ lowerNoSpace target_industry ++ fbPart6 ++ sender_name ++ fbPart7
    ++ target_industry ++ fbPart8 ++ target_industry ++ fbPart9
    ++ target_industry ++ fbPart10

/-! ## Toolkit for the fallback round trip (Claim C2)

`noOcc s t` says pattern `s` occurs nowhere in `t`.  Such facts about the
(long) fallback document are established chunk by chunk: an occurrence in
a concatenation lies in the left part, in the right part, or straddles the
boundary, and a straddling occurrence must contain the boundary characters
(so a boundary character outside the pattern rules it out), or else lies
inside a small explicit window. -/

def noOcc (s t : Str) : Prop := ∀ i, ¬ occursAt s t i

/-- Concatenation of a chunk list. -/
def joinStr (cs : List Str) : Str := cs.foldr (· ++ ·) []

/-- The last character of `a` exists and is not a character of `s`. -/
def lastNotIn (a s : Str) : Bool :=
  match a.getLast? with
  | some ch => !(s.elem ch)
  | none => false

/-- The first character of `b` exists and is not a character of `s`. -/
def headNotIn (b s : Str) : Bool :=
  match b.head? with
  | some ch => !(s.elem ch)
  | none => false

/-- The boundary window of width `L - 1` on each side. -/
def windowStr (a b : Str) (L : Nat) : Str :=
  a.drop (a.length - (L - 1)) ++ b.take (L - 1)

/-- A chunk boundary across which `s` cannot straddle. -/
def boundaryOK (s a b : Str) : Prop :=
  lastNotIn a s = true ∨ headNotIn b s = true ∨
    (s.length - 1 ≤ b.length ∧ containsSub s (windowStr a b s.length) = false)

instance (s a b : Str) : Decidable (boundaryOK s a b) := by
  unfold boundaryOK
  infer_instance

theorem joinStr_nil : joinStr [] = [] := rfl

theorem joinStr_cons (a : Str) (cs : List Str) :
    joinStr (a :: cs) = a ++ joinStr cs := rfl

theorem joinStr_append (xs ys : List Str) :
    joinStr (xs ++ ys) = joinStr xs ++ joinStr ys := by
  induction xs with
  | nil => rfl
  | cons a xs ih =>
    rw [List.cons_append, joinStr_cons, joinStr_cons, ih, List.append_assoc]

theorem startsWith_nil_of_ne {s : Str} (hs : s ≠ []) :
    startsWith s [] = false := by
  cases s with
  | nil => exact absurd rfl hs
  | cons c cs => rfl

theorem occursAt_take {s t : Str} {i : Nat} (h : occursAt s t i) {m : Nat}
    (hm : i + s.length ≤ m) : occursAt s (t.take m) i := by
  rw [occursAt, startsWith_iff_prefixOf] at h ⊢
  rw [List.drop_take]
  exact List.prefix_take_iff.mpr ⟨h, by omega⟩

theorem occursAt_drop_shift {s t : Str} {i : Nat} (h : occursAt s t i)
    {d : Nat} (hd : d ≤ i) : occursAt s (t.drop d) (i - d) := by
  rw [occursAt] at h ⊢
  rw [List.drop_drop]
  have hdd : d + (i - d) = i := by omega
  rw [hdd]
  exact h

theorem occursAt_append_left_of {s a b : Str} {i : Nat}
    (h : occursAt s (a ++ b) i) (hle : i + s.length ≤ a.length) :
    occursAt s a i := by
  rw [occursAt, startsWith_iff_prefixOf] at h ⊢
  rw [List.drop_append_of_le_length (by omega)] at h
  have hs : s = ((a.drop i) ++ b).take s.length := List.prefix_iff_eq_take.mp h
  rw [List.take_append_of_le_length (by rw [List.length_drop]; omega)] at hs
  rw [List.prefix_iff_eq_take]
  exact hs

theorem occursAt_append_right_of {s a b : Str} {i : Nat}
    (h : occursAt s (a ++ b) i) (hge : a.length ≤ i) :
    occursAt s b (i - a.length) := by
  rw [occursAt] at h ⊢
  have hi : i = a.length + (i - a.length) := by omega
  rw [hi, List.drop_append] at h
  exact h

theorem occursAt_append_left {s a : Str} (b : Str) {i : Nat}
    (h : occursAt s a i) (hs : s ≠ []) : occursAt s (a ++ b) i := by
  rw [occursAt, startsWith_iff_prefixOf] at h ⊢
  have hlen := h.length_le
  rw [List.length_drop] at hlen
  have hi : i ≤ a.length := by
    have := List.length_pos.mpr hs
    omega
  rw [List.drop_append_of_le_length hi]
  exact h.trans (List.prefix_append _ _)

theorem occursAt_append_right {s b : Str} (a : Str) {i : Nat}
    (h : occursAt s b i) : occursAt s (a ++ b) (a.length + i) := by
  rw [occursAt] at h ⊢
  rw [List.drop_append]
  exact h

theorem occursAt_char_mem {s t : Str} {i : Nat} (h : occursAt s t i)
    (k : Nat) (hk : k < s.length) :
    ∃ c, t.get? (i + k) = some c ∧ c ∈ s := by
  rw [occursAt, startsWith_iff_prefixOf] at h
  have hs : s = (t.drop i).take s.length := List.prefix_iff_eq_take.mp h
  cases hg : s.get? k with
  | none =>
    rw [List.get?_eq_none] at hg
    omega
  | some c =>
    refine ⟨c, ?_, List.get?_mem hg⟩
    have h1 : ((t.drop i).take s.length).get? k = s.get? k := by rw [← hs]
    rw [List.get?_take hk, List.get?_drop] at h1
    rw [h1, hg]

theorem noOcc_of_not_memChar {s t : Str} {c : Char} (hc : c ∈ s)
    (h : ¬ c ∈ t) : noOcc s t := by
  intro i hocc
  rw [occursAt, startsWith_iff_prefixOf] at hocc
  exact h (List.drop_subset i t (hocc.subset hc))

theorem not_memChar_join {c : Char} {cs : List Str}
    (h : ∀ x ∈ cs, ¬ c ∈ x) : ¬ c ∈ joinStr cs := by
  induction cs with
  | nil => simp [joinStr_nil]
  | cons a rest ih =>
    rw [joinStr_cons]
    intro hmem
    rcases List.mem_append.mp hmem with h1 | h1
    · exact h a (by simp) h1
    · exact ih (fun x hx => h x (by simp [hx])) h1

theorem noOcc_join (s : Str) (hs : s ≠ []) :
    ∀ cs : List Str, (∀ c ∈ cs, noOcc s c) → cs.Chain' (boundaryOK s) →
    noOcc s (joinStr cs) := by
  intro cs
  induction cs with
  | nil =>
    intro _ _ i hocc
    rw [joinStr_nil, occursAt, List.drop_nil, startsWith_nil_of_ne hs] at hocc
    cases hocc
  | cons a rest ih =>
    intro hall hchain i hocc
    rw [joinStr_cons] at hocc
    have hsL : 0 < s.length := List.length_pos.mpr hs
    by_cases h1 : i + s.length ≤ a.length
    · exact hall a (by simp) i (occursAt_append_left_of hocc h1)
    · by_cases h2 : a.length ≤ i
      · exact ih (fun c hc => hall c (by simp [hc])) hchain.tail _
          (occursAt_append_right_of hocc h2)
      · have hia : i < a.length := by omega
        cases rest with
        | nil =>
          rw [joinStr_nil, List.append_nil] at hocc
          exact hall a (by simp) i hocc
        | cons b rest2 =>
          have hR : boundaryOK s a b := (List.chain'_cons.mp hchain).1
          rcases hR with hR | hR | ⟨hbl, hwin⟩
          · obtain ⟨c, hc, hcs⟩ := occursAt_char_mem hocc (a.length - 1 - i) (by omega)
            have hidx : i + (a.length - 1 - i) = a.length - 1 := by omega
            rw [hidx, List.get?_append (by omega)] at hc
            have ha_ne : a ≠ [] := by
              intro h0
              rw [h0] at hia
              simp at hia
            have hlast : a.getLast? = some c := by
              rw [List.getLast?_eq_get? a]
              exact hc
            rw [lastNotIn, hlast] at hR
            simp only [Bool.not_eq_true'] at hR
            exact absurd ((List.elem_iff).mpr hcs) (by rw [hR]; exact fun hf => by cases hf)
          · obtain ⟨c, hc, hcs⟩ := occursAt_char_mem hocc (a.length - i) (by omega)
            have hidx : i + (a.length - i) = a.length := by omega
            rw [hidx, List.get?_append_right (le_refl _), Nat.sub_self] at hc
            have hb_ne : b ≠ [] := by
              rw [headNotIn] at hR
              cases hbh : b.head? with
              | none => rw [hbh] at hR; cases hR
              | some c2 =>
                intro h0
                rw [h0] at hbh
                cases hbh
            have hzero : (joinStr (b :: rest2)).get? 0 = some c := hc
            rw [List.get?_zero, joinStr_cons,
              List.head?_append_of_ne_nil _ hb_ne] at hzero
            rw [headNotIn, hzero] at hR
            simp only [Bool.not_eq_true'] at hR
            exact absurd ((List.elem_iff).mpr hcs) (by rw [hR]; exact fun hf => by cases hf)
          · have h3 := occursAt_take hocc (m := a.length + (s.length - 1)) (by omega)
            rw [List.take_append] at h3
            have h4 : (joinStr (b :: rest2)).take (s.length - 1) =
                b.take (s.length - 1) := by
              rw [joinStr_cons, List.take_append_of_le_length hbl]
            rw [h4] at h3
            have h5 := occursAt_drop_shift h3 (d := a.length - (s.length - 1))
              (by omega)
            rw [List.drop_append_of_le_length (by omega)] at h5
            have hmem := (containsSub_iff s (windowStr a b s.length)).mpr
              ⟨_, by rw [windowStr]; exact h5⟩
            rw [hwin] at hmem
            cases hmem


/-! ### Engine lemmas for searches over concatenations -/

/-- `noOcc` of a join from decidable per-chunk and per-boundary checks. -/
theorem noOcc_join_chunks (s : Str) (hs : s ≠ []) (cs : List Str)
    (h1 : ∀ c ∈ cs, containsSub s c = false)
    (h2 : cs.Chain' (boundaryOK s)) : noOcc s (joinStr cs) :=
  noOcc_join s hs cs
    (fun c hc i hocc => by
      have hmem := (containsSub_iff s c).mpr ⟨i, hocc⟩
      rw [h1 c hc] at hmem
      cases hmem)
    h2

theorem litAt_true_eq_lower (s : Str) : ∀ t : Str,
    litAt true s t = startsWith (pyLower s) (pyLower t) := by
  induction s with
  | nil => intro t; rfl
  | cons p ps ih =>
    intro t
    cases t with
    | nil => rfl
    | cons c cs => simp [litAt, pyLower, startsWith, chEq, ih, pyLower]

theorem matchToks_lit_none {ci : Bool} {s : Str} {ts : List Tok}
    {rest : Str} {gs : List (Str × Nat)} {caps : List Str} {pos : Nat}
    (h : litAt ci s rest = false) :
    matchToks ci (Tok.lit s :: ts) rest gs caps pos = none := by
  rw [matchToks, if_neg]
  rw [h]
  exact Bool.false_ne_true

theorem searchFrom_skip {ci : Bool} {s : Str} {ts : List Tok} :
    ∀ (pre rest : Str),
      (∀ i, i < pre.length → litAt ci s ((pre ++ rest).drop i) = false) →
      searchFrom ci (Tok.lit s :: ts) (pre ++ rest) =
        searchFrom ci (Tok.lit s :: ts) rest := by
  intro pre
  induction pre with
  | nil => intro rest _; rfl
  | cons c pre ih =>
    intro rest h
    rw [List.cons_append, searchFrom,
      matchToks_lit_none (by simpa using h 0 (by simp))]
    exact ih rest (fun i hi => by simpa using h (i + 1) (by simpa using hi))

theorem searchFrom_none_of_fail {ci : Bool} {s : Str} {ts : List Tok} :
    ∀ rest : Str, (∀ i, litAt ci s (rest.drop i) = false) →
      searchFrom ci (Tok.lit s :: ts) rest = none := by
  intro rest
  induction rest with
  | nil =>
    intro h
    rw [searchFrom, matchToks_lit_none (by simpa using h 0)]
  | cons c cs ih =>
    intro h
    rw [searchFrom, matchToks_lit_none (by simpa using h 0)]
    exact ih (fun i => by simpa using h (i + 1))

/-- An occurrence of `s` starting inside `pre` lies inside `pre` extended
by the first `|s| - 1` characters of `rest`. -/
theorem noOcc_prefix_bound {s pre rest : Str} (hs : 0 < s.length)
    (h : noOcc s (pre ++ rest.take (s.length - 1))) :
    ∀ i, i < pre.length → ¬ occursAt s (pre ++ rest) i := by
  intro i hi hocc
  have h3 := occursAt_take hocc (m := pre.length + (s.length - 1)) (by omega)
  rw [List.take_append] at h3
  exact h i h3

theorem pyLower_append (a b : Str) : pyLower (a ++ b) = pyLower a ++ pyLower b :=
  List.map_append pyLowerChar a b

theorem pyLower_drop (a : Str) (n : Nat) :
    pyLower (a.drop n) = (pyLower a).drop n := by
  rw [pyLower, pyLower, List.map_drop]

theorem pyLower_take (a : Str) (n : Nat) :
    pyLower (a.take n) = (pyLower a).take n := by
  rw [pyLower, pyLower, List.map_take]

theorem pyLower_length (a : Str) : (pyLower a).length = a.length :=
  List.length_map a pyLowerChar

theorem pyLower_join : ∀ cs : List Str,
    pyLower (joinStr cs) = joinStr (cs.map pyLower) := by
  intro cs
  induction cs with
  | nil => rfl
  | cons a rest ih => rw [joinStr_cons, pyLower_append, ih, List.map_cons, joinStr_cons]

/-- Skip lemma, case-sensitive form: the head literal of the pattern does
not occur early, so the search may start at `rest`. -/
theorem searchFrom_skip_cs {s : Str} {ts : List Tok} (pre rest : Str)
    (hs : 0 < s.length)
    (h : noOcc s (pre ++ rest.take (s.length - 1))) :
    searchFrom false (Tok.lit s :: ts) (pre ++ rest) =
      searchFrom false (Tok.lit s :: ts) rest := by
  refine searchFrom_skip pre rest (fun i hi => ?_)
  rw [litAt_false_eq_startsWith]
  have := noOcc_prefix_bound hs h i hi
  rw [occursAt] at this
  exact Bool.not_eq_true _ |>.mp this

/-- Skip lemma, case-insensitive form. -/
theorem searchFrom_skip_ci {s : Str} {ts : List Tok} (pre rest : Str)
    (hs : 0 < s.length)
    (h : noOcc (pyLower s) (pyLower pre ++ (pyLower rest).take (s.length - 1))) :
    searchFrom true (Tok.lit s :: ts) (pre ++ rest) =
      searchFrom true (Tok.lit s :: ts) rest := by
  refine searchFrom_skip pre rest (fun i hi => ?_)
  rw [litAt_true_eq_lower, pyLower_drop, pyLower_append]
  have hs2 : 0 < (pyLower s).length := by rw [pyLower_length]; omega
  have hlen : (pyLower s).length = s.length := pyLower_length s
  have := noOcc_prefix_bound hs2 (by rw [hlen]; exact h) i
    (by rw [pyLower_length]; exact hi)
  rw [occursAt] at this
  exact Bool.not_eq_true _ |>.mp this

theorem searchFrom_none_cs {s : Str} {ts : List Tok} (rest : Str)
    (h : noOcc s rest) :
    searchFrom false (Tok.lit s :: ts) rest = none := by
  refine searchFrom_none_of_fail rest (fun i => ?_)
  rw [litAt_false_eq_startsWith]
  have := h i
  rw [occursAt] at this
  exact Bool.not_eq_true _ |>.mp this

theorem searchFrom_none_ci {s : Str} {ts : List Tok} (rest : Str)
    (h : noOcc (pyLower s) (pyLower rest)) :
    searchFrom true (Tok.lit s :: ts) rest = none := by
  refine searchFrom_none_of_fail rest (fun i => ?_)
  rw [litAt_true_eq_lower, pyLower_drop]
  have := h i
  rw [occursAt] at this
  exact Bool.not_eq_true _ |>.mp this

theorem findAllAux_nil {ci : Bool} {toks : List Tok} {rest : Str}
    (h : searchFrom ci toks rest = none) :
    ∀ fuel, findAllAux ci toks fuel rest = [] := by
  intro fuel
  cases fuel with
  | zero => rfl
  | succ n => rw [findAllAux, h]

theorem findAllAux_succ {ci : Bool} {toks : List Tok} {fuel : Nat}
    {rest rest2 : Str} {caps : List Str}
    (h : searchFrom ci toks rest = some (caps, rest2)) :
    findAllAux ci toks (fuel + 1) rest =
      caps.headD [] :: findAllAux ci toks fuel rest2 := by
  rw [findAllAux, h]

theorem joinStr_concat (xs : List Str) (y : Str) :
    joinStr (xs ++ [y]) = joinStr xs ++ y := by
  rw [joinStr_append]
  have : joinStr [y] = y := by rw [joinStr_cons, joinStr_nil, List.append_nil]
  rw [this]

/-! ### `strip` identity lemmas -/

theorem lstrip_eq_self {s : Str} {c : Char} (hh : s.head? = some c)
    (hc : pyIsSpace c = false) : lstrip s = s := by
  cases s with
  | nil => cases hh
  | cons a as =>
    have ha : a = c := by
      have : some a = some c := hh
      exact Option.some.inj this
    rw [lstrip, List.dropWhile_cons, ha, hc]
    rfl

theorem rstrip_eq_self {s : Str} {c : Char} (hh : s.getLast? = some c)
    (hc : pyIsSpace c = false) : rstrip s = s := by
  rw [rstrip]
  have hr : s.reverse.head? = some c := by rw [List.head?_reverse]; exact hh
  cases hrev : s.reverse with
  | nil => rw [hrev] at hr; cases hr
  | cons a as =>
    rw [hrev] at hr
    have ha : a = c := Option.some.inj hr
    rw [List.dropWhile_cons, ha, hc]
    simp only [Bool.false_eq_true, if_false]
    have h2 : (a :: as) = s.reverse := hrev.symm
    rw [ha] at h2
    rw [h2, List.reverse_reverse]

theorem strip_eq_self {s : Str} {c d : Char} (hh : s.head? = some c)
    (hc : pyIsSpace c = false) (hl : s.getLast? = some d)
    (hd : pyIsSpace d = false) : strip s = s := by
  rw [strip, lstrip_eq_self hh hc, rstrip_eq_self hl hd]

/-- The fallback document as a chunk list (`doc_eq_join`): the
sub-literals of the f-string interleaved with its interpolations. -/
def docChunks (sc ti : String) : List Str :=
  let si := get_fallback_sender_info ti
  [fbPart0.data,
   sc.data,
   fbPart1a.data,
   fbPart1b.data,
   fbPart1c.data,
   fbPart1d.data,
   fbPart1e.data,
   fbPart1f.data,
   si.1.data,
   fbPart2.data,
   si.2.data,
   fbPart3a.data,
   fbPart3b.data,
   fbPart3c.data,
   ti.data,
   fbPart4.data,
   sc.data,
   fbPart5a.data,
   fbPart5b.data,
   fbPart5c.data,
   (lowerNoSpace ti).data,
   fbPart6a.data,
   fbPart6b.data,
   fbPart6c.data,
   si.1.data,
   fbPart7.data,
   ti.data,
   fbPart8.data,
   ti.data,
   fbPart9.data,
   ti.data,
   fbPart10a.data,
   fbPart10b.data]

/-- The fallback document is the concatenation of its chunks. -/
theorem doc_eq_join (sc ti : String) :
    (create_fallback_template sc ti).data = joinStr (docChunks sc ti) := by
  simp only [create_fallback_template, docChunks, fbPart1, fbPart3, fbPart5,
    fbPart6, fbPart10, joinStr_cons, joinStr_nil, String.data_append,
    List.append_assoc, List.append_nil]

/-! ## Chunk regions of the fallback document (Claim C2) -/

/-- The chunks strictly before the `<!-- From: ` literal. -/
def senderPreChunks (sc : String) : List Str :=
  [fbPart0.data,
   sc.data,
   fbPart1a.data,
   fbPart1b.data,
   fbPart1c.data,
   fbPart1d.data,
   fbPart1e.data]

/-- The chunks after the sender comment (from fragment 3b on). -/
def senderTailChunks (sc ti : String) : List Str :=
  let si := get_fallback_sender_info ti
  [fbPart3b.data,
   fbPart3c.data,
   ti.data,
   fbPart4.data,
   sc.data,
   fbPart5a.data,
   fbPart5b.data,
   fbPart5c.data,
   (lowerNoSpace ti).data,
   fbPart6a.data,
   fbPart6b.data,
   fbPart6c.data,
   si.1.data,
   fbPart7.data,
   ti.data,
   fbPart8.data,
   ti.data,
   fbPart9.data,
   ti.data,
   fbPart10a.data,
   fbPart10b.data]

/-- The chunks strictly before the `href=` literal. -/
def hrefPreChunks (sc ti : String) : List Str :=
  let si := get_fallback_sender_info ti
  [fbPart0.data,
   sc.data,
   fbPart1a.data,
   fbPart1b.data,
   fbPart1c.data,
   fbPart1d.data,
   fbPart1e.data,
   fbPart1f.data,
   si.1.data,
   fbPart2.data,
   si.2.data,
   fbPart3a.data,
   fbPart3b.data,
   fbPart3c.data,
   ti.data,
   fbPart4.data,
   sc.data,
   fbPart5a.data,
   fbPart5b.data]

/-- The chunks after the closing quote of the `href` value. -/
def hrefRestChunks (ti : String) : List Str :=
  let si := get_fallback_sender_info ti
  [fbPart6b.data,
   fbPart6c.data,
   si.1.data,
   fbPart7.data,
   ti.data,
   fbPart8.data,
   ti.data,
   fbPart9.data,
   ti.data,
   fbPart10a.data,
   fbPart10b.data]

/-- The chunks strictly before the training disclaimer. -/
def discPreChunks (sc ti : String) : List Str :=
  let si := get_fallback_sender_info ti
  [fbPart0.data,
   sc.data,
   fbPart1a.data,
   fbPart1b.data,
   fbPart1c.data,
   fbPart1d.data,
   fbPart1e.data,
   fbPart1f.data,
   si.1.data,
   fbPart2.data,
   si.2.data,
   fbPart3a.data,
   fbPart3b.data]

/-- The chunks after the start of the training disclaimer. -/
def discTailChunks (sc ti : String) : List Str :=
  let si := get_fallback_sender_info ti
  [ti.data,
   fbPart4.data,
   sc.data,
   fbPart5a.data,
   fbPart5b.data,
   fbPart5c.data,
   (lowerNoSpace ti).data,
   fbPart6a.data,
   fbPart6b.data,
   fbPart6c.data,
   si.1.data,
   fbPart7.data,
   ti.data,
   fbPart8.data,
   ti.data,
   fbPart9.data,
   ti.data,
   fbPart10a.data,
   fbPart10b.data]

/-- All chunks but the final `</html>`. -/
def docFrontChunks (sc ti : String) : List Str :=
  let si := get_fallback_sender_info ti
  [fbPart0.data,
   sc.data,
   fbPart1a.data,
   fbPart1b.data,
   fbPart1c.data,
   fbPart1d.data,
   fbPart1e.data,
   fbPart1f.data,
   si.1.data,
   fbPart2.data,
   si.2.data,
   fbPart3a.data,
   fbPart3b.data,
   fbPart3c.data,
   ti.data,
   fbPart4.data,
   sc.data,
   fbPart5a.data,
   fbPart5b.data,
   fbPart5c.data,
   (lowerNoSpace ti).data,
   fbPart6a.data,
   fbPart6b.data,
   fbPart6c.data,
   si.1.data,
   fbPart7.data,
   ti.data,
   fbPart8.data,
   ti.data,
   fbPart9.data,
   ti.data,
   fbPart10a.data]

/-- All chunks but the leading fragment 0. -/
def docTailChunks (sc ti : String) : List Str :=
  let si := get_fallback_sender_info ti
  [sc.data,
   fbPart1a.data,
   fbPart1b.data,
   fbPart1c.data,
   fbPart1d.data,
   fbPart1e.data,
   fbPart1f.data,
   si.1.data,
   fbPart2.data,
   si.2.data,
   fbPart3a.data,
   fbPart3b.data,
   fbPart3c.data,
   ti.data,
   fbPart4.data,
   sc.data,
   fbPart5a.data,
   fbPart5b.data,
   fbPart5c.data,
   (lowerNoSpace ti).data,
   fbPart6a.data,
   fbPart6b.data,
   fbPart6c.data,
   si.1.data,
   fbPart7.data,
   ti.data,
   fbPart8.data,
   ti.data,
   fbPart9.data,
   ti.data,
   fbPart10a.data,
   fbPart10b.data]


theorem docChunks_split_sender (sc ti : String) :
    docChunks sc ti = senderPreChunks sc ++
      (fbPart1f.data :: (get_fallback_sender_info ti).1.data :: fbPart2.data ::
        (get_fallback_sender_info ti).2.data :: fbPart3a.data ::
        senderTailChunks sc ti) := rfl

theorem docChunks_split_href (sc ti : String) :
    docChunks sc ti = hrefPreChunks sc ti ++
      (fbPart5c.data :: (lowerNoSpace ti).data :: fbPart6a.data ::
        hrefRestChunks ti) := rfl

theorem docChunks_split_disc (sc ti : String) :
    docChunks sc ti = discPreChunks sc ti ++
      (fbPart3c.data :: discTailChunks sc ti) := rfl

theorem docChunks_split_front (sc ti : String) :
    docChunks sc ti = docFrontChunks sc ti ++ [fbPart10b.data] := rfl

theorem docChunks_split_head (sc ti : String) :
    docChunks sc ti = fbPart0.data :: docTailChunks sc ti := rfl

/-- No `<!--` occurs before (or straddling into) the `<!-- From: ` literal. -/
theorem noOcc_cmt_pre (sc : ScenarioType) :
    noOcc ("<!--".data) (joinStr (senderPreChunks sc.value) ++ fbPart1f.data.take (("<!--".data).length - 1)) := by
  rw [← joinStr_concat]
  refine noOcc_join_chunks _ (by decide) _ ?_ ?_
  · intro c hc
    simp only [senderPreChunks, List.cons_append, List.nil_append, List.append_nil,
      List.mem_cons, List.not_mem_nil, or_false] at hc
    rcases hc with rfl|rfl|rfl|rfl|rfl|rfl|rfl|rfl
    · decide
    · cases sc <;> decide
    · decide
    · decide
    · decide
    · decide
    · decide
    · decide
  · simp only [senderPreChunks, List.cons_append, List.nil_append, List.append_nil,
      List.chain'_cons, List.chain'_singleton, and_true]
    refine ⟨?_, ?_, ?_, ?_, ?_, ?_, ?_⟩
    · cases sc <;> decide
    · cases sc <;> decide
    · decide
    · decide
    · decide
    · decide
    · decide


/-- No `href=` occurs (case-insensitively) before the `href` attribute of the button link. -/
theorem noOcc_href_pre (sc : ScenarioType) (ti : TargetIndustry) :
    noOcc (pyLower ("href=".data)) (joinStr (List.map pyLower (hrefPreChunks sc.value ti.value)) ++ (pyLower fbPart5c.data).take (("href=".data).length - 1)) := by
  rw [← joinStr_concat]
  refine noOcc_join_chunks _ (by decide) _ ?_ ?_
  · intro c hc
    simp only [hrefPreChunks, List.cons_append, List.nil_append, List.append_nil, List.map_cons, List.map_nil,
      List.mem_cons, List.not_mem_nil, or_false] at hc
    rcases hc with rfl|rfl|rfl|rfl|rfl|rfl|rfl|rfl|rfl|rfl|rfl|rfl|rfl|rfl|rfl|rfl|rfl|rfl|rfl|rfl
    · decide
    · cases sc <;> decide
    · decide
    · decide
    · decide
    · decide
    · decide
    · decide
    · cases ti <;> decide
    · decide
    · cases ti <;> decide
    · decide
    · decide
    · decide
    · cases ti <;> decide
    · decide
    · cases sc <;> decide
    · decide
    · decide
    · decide
  · simp only [hrefPreChunks, List.cons_append, List.nil_append, List.append_nil, List.map_cons, List.map_nil,
      List.chain'_cons, List.chain'_singleton, and_true]
    refine ⟨?_, ?_, ?_, ?_, ?_, ?_, ?_, ?_, ?_, ?_, ?_, ?_, ?_, ?_, ?_, ?_, ?_, ?_, ?_⟩
    · cases sc <;> decide
    · cases sc <;> decide
    · decide
    · decide
    · decide
    · decide
    · decide
    · cases ti <;> decide
    · cases ti <;> decide
    · cases ti <;> decide
    · cases ti <;> decide
    · decide
    · decide
    · cases ti <;> decide
    · cases ti <;> decide
    · cases sc <;> decide
    · cases sc <;> decide
    · decide
    · decide


/-- No `href=` occurs (case-insensitively) after the closing quote of the button link. -/
theorem noOcc_href_rest (ti : TargetIndustry) :
    noOcc (pyLower ("href=".data)) (joinStr (List.map pyLower (hrefRestChunks ti.value))) := by
  refine noOcc_join_chunks _ (by decide) _ ?_ ?_
  · intro c hc
    simp only [hrefRestChunks, List.cons_append, List.nil_append, List.append_nil, List.map_cons, List.map_nil,
      List.mem_cons, List.not_mem_nil, or_false] at hc
    rcases hc with rfl|rfl|rfl|rfl|rfl|rfl|rfl|rfl|rfl|rfl|rfl
    · decide
    · decide
    · cases ti <;> decide
    · decide
    · cases ti <;> decide
    · decide
    · cases ti <;> decide
    · decide
    · cases ti <;> decide
    · decide
    · decide
  · simp only [hrefRestChunks, List.cons_append, List.nil_append, List.append_nil, List.map_cons, List.map_nil,
      List.chain'_cons, List.chain'_singleton, and_true]
    refine ⟨?_, ?_, ?_, ?_, ?_, ?_, ?_, ?_, ?_, ?_⟩
    · decide
    · cases ti <;> decide
    · cases ti <;> decide
    · cases ti <;> decide
    · cases ti <;> decide
    · cases ti <;> decide
    · cases ti <;> decide
    · cases ti <;> decide
    · cases ti <;> decide
    · decide


/-- The real-company domain `microsoft.com` occurs nowhere in the lower-cased fallback document. -/
theorem noOcc_company1 (sc : ScenarioType) (ti : TargetIndustry) :
    noOcc (pyLower ("microsoft.com".data)) (joinStr (List.map pyLower (docChunks sc.value ti.value))) := by
  refine noOcc_join_chunks _ (by decide) _ ?_ ?_
  · intro c hc
    simp only [docChunks, List.cons_append, List.nil_append, List.append_nil, List.map_cons, List.map_nil,
      List.mem_cons, List.not_mem_nil, or_false] at hc
    rcases hc with rfl|rfl|rfl|rfl|rfl|rfl|rfl|rfl|rfl|rfl|rfl|rfl|rfl|rfl|rfl|rfl|rfl|rfl|rfl|rfl|rfl|rfl|rfl|rfl|rfl|rfl|rfl|rfl|rfl|rfl|rfl|rfl|rfl
    · decide
    · cases sc <;> decide
    · decide
    · decide
    · decide
    · decide
    · decide
    · decide
    · cases ti <;> decide
    · decide
    · cases ti <;> decide
    · decide
    · decide
    · decide
    · cases ti <;> decide
    · decide
    · cases sc <;> decide
    · decide
    · decide
    · decide
    · cases ti <;> decide
    · decide
    · decide
    · decide
    · cases ti <;> decide
    · decide
    · cases ti <;> decide
    · decide
    · cases ti <;> decide
    · decide
    · cases ti <;> decide
    · decide
    · decide
  · simp only [docChunks, List.cons_append, List.nil_append, List.append_nil, List.map_cons, List.map_nil,
      List.chain'_cons, List.chain'_singleton, and_true]
    refine ⟨?_, ?_, ?_, ?_, ?_, ?_, ?_, ?_, ?_, ?_, ?_, ?_, ?_, ?_, ?_, ?_, ?_, ?_, ?_, ?_, ?_, ?_, ?_, ?_, ?_, ?_, ?_, ?_, ?_, ?_, ?_, ?_⟩
    · cases sc <;> decide
    · cases sc <;> decide
    · decide
    · decide
    · decide
    · decide
    · decide
    · cases ti <;> decide
    · cases ti <;> decide
    · cases ti <;> decide
    · cases ti <;> decide
    · decide
    · decide
    · cases ti <;> decide
    · cases ti <;> decide
    · cases sc <;> decide
    · cases sc <;> decide
    · decide
    · decide
    · cases ti <;> decide
    · cases ti <;> decide
    · decide
    · decide
    · cases ti <;> decide
    · cases ti <;> decide
    · cases ti <;> decide
    · cases ti <;> decide
    · cases ti <;> decide
    · cases ti <;> decide
    · cases ti <;> decide
    · cases ti <;> decide
    · decide


/-- The real-company domain `google.com` occurs nowhere in the lower-cased fallback document. -/
theorem noOcc_company2 (sc : ScenarioType) (ti : TargetIndustry) :
    noOcc (pyLower ("google.com".data)) (joinStr (List.map pyLower (docChunks sc.value ti.value))) := by
  refine noOcc_join_chunks _ (by decide) _ ?_ ?_
  · intro c hc
    simp only [docChunks, List.cons_append, List.nil_append, List.append_nil, List.map_cons, List.map_nil,
      List.mem_cons, List.not_mem_nil, or_false] at hc
    rcases hc with rfl|rfl|rfl|rfl|rfl|rfl|rfl|rfl|rfl|rfl|rfl|rfl|rfl|rfl|rfl|rfl|rfl|rfl|rfl|rfl|rfl|rfl|rfl|rfl|rfl|rfl|rfl|rfl|rfl|rfl|rfl|rfl|rfl
    · decide
    · cases sc <;> decide
    · decide
    · decide
    · decide
    · decide
    · decide
    · decide
    · cases ti <;> decide
    · decide
    · cases ti <;> decide
    · decide
    · decide
    · decide
    · cases ti <;> decide
    · decide
    · cases sc <;> decide
    · decide
    · decide
    · decide
    · cases ti <;> decide
    · decide
    · decide
    · decide
    · cases ti <;> decide
    · decide
    · cases ti <;> decide
    · decide
    · cases ti <;> decide
    · decide
    · cases ti <;> decide
    · decide
    · decide
  · simp only [docChunks, List.cons_append, List.nil_append, List.append_nil, List.map_cons, List.map_nil,
      List.chain'_cons, List.chain'_singleton, and_true]
    refine ⟨?_, ?_, ?_, ?_, ?_, ?_, ?_, ?_, ?_, ?_, ?_, ?_, ?_, ?_, ?_, ?_, ?_, ?_, ?_, ?_, ?_, ?_, ?_, ?_, ?_, ?_, ?_, ?_, ?_, ?_, ?_, ?_⟩
    · cases sc <;> decide
    · cases sc <;> decide
    · decide
    · decide
    · decide
    · decide
    · decide
    · cases ti <;> decide
    · cases ti <;> decide
    · cases ti <;> decide
    · cases ti <;> decide
    · decide
    · decide
    · cases ti <;> decide
    · cases ti <;> decide
    · cases sc <;> decide
    · cases sc <;> decide
    · decide
    · decide
    · cases ti <;> decide
    · cases ti <;> decide
    · decide
    · decide
    · cases ti <;> decide
    · cases ti <;> decide
    · cases ti <;> decide
    · cases ti <;> decide
    · cases ti <;> decide
    · cases ti <;> decide
    · cases ti <;> decide
    · cases ti <;> decide
    · decide


/-- The real-company domain `amazon.com` occurs nowhere in the lower-cased fallback document. -/
theorem noOcc_company3 (sc : ScenarioType) (ti : TargetIndustry) :
    noOcc (pyLower ("amazon.com".data)) (joinStr (List.map pyLower (docChunks sc.value ti.value))) := by
  refine noOcc_join_chunks _ (by decide) _ ?_ ?_
  · intro c hc
    simp only [docChunks, List.cons_append, List.nil_append, List.append_nil, List.map_cons, List.map_nil,
      List.mem_cons, List.not_mem_nil, or_false] at hc
    rcases hc with rfl|rfl|rfl|rfl|rfl|rfl|rfl|rfl|rfl|rfl|rfl|rfl|rfl|rfl|rfl|rfl|rfl|rfl|rfl|rfl|rfl|rfl|rfl|rfl|rfl|rfl|rfl|rfl|rfl|rfl|rfl|rfl|rfl
    · decide
    · cases sc <;> decide
    · decide
    · decide
    · decide
    · decide
    · decide
    · decide
    · cases ti <;> decide
    · decide
    · cases ti <;> decide
    · decide
    · decide
    · decide
    · cases ti <;> decide
    · decide
    · cases sc <;> decide
    · decide
    · decide
    · decide
    · cases ti <;> decide
    · decide
    · decide
    · decide
    · cases ti <;> decide
    · decide
    · cases ti <;> decide
    · decide
    · cases ti <;> decide
    · decide
    · cases ti <;> decide
    · decide
    · decide
  · simp only [docChunks, List.cons_append, List.nil_append, List.append_nil, List.map_cons, List.map_nil,
      List.chain'_cons, List.chain'_singleton, and_true]
    refine ⟨?_, ?_, ?_, ?_, ?_, ?_, ?_, ?_, ?_, ?_, ?_, ?_, ?_, ?_, ?_, ?_, ?_, ?_, ?_, ?_, ?_, ?_, ?_, ?_, ?_, ?_, ?_, ?_, ?_, ?_, ?_, ?_⟩
    · cases sc <;> decide
    · cases sc <;> decide
    · decide
    · decide
    · decide
    · decide
    · decide
    · cases ti <;> decide
    · cases ti <;> decide
    · cases ti <;> decide
    · cases ti <;> decide
    · decide
    · decide
    · cases ti <;> decide
    · cases ti <;> decide
    · cases sc <;> decide
    · cases sc <;> decide
    · decide
    · decide
    · cases ti <;> decide
    · cases ti <;> decide
    · decide
    · decide
    · cases ti <;> decide
    · cases ti <;> decide
    · cases ti <;> decide
    · cases ti <;> decide
    · cases ti <;> decide
    · cases ti <;> decide
    · cases ti <;> decide
    · cases ti <;> decide
    · decide


/-- The real-company domain `apple.com` occurs nowhere in the lower-cased fallback document. -/
theorem noOcc_company4 (sc : ScenarioType) (ti : TargetIndustry) :
    noOcc (pyLower ("apple.com".data)) (joinStr (List.map pyLower (docChunks sc.value ti.value))) := by
  refine noOcc_join_chunks _ (by decide) _ ?_ ?_
  · intro c hc
    simp only [docChunks, List.cons_append, List.nil_append, List.append_nil, List.map_cons, List.map_nil,
      List.mem_cons, List.not_mem_nil, or_false] at hc
    rcases hc with rfl|rfl|rfl|rfl|rfl|rfl|rfl|rfl|rfl|rfl|rfl|rfl|rfl|rfl|rfl|rfl|rfl|rfl|rfl|rfl|rfl|rfl|rfl|rfl|rfl|rfl|rfl|rfl|rfl|rfl|rfl|rfl|rfl
    · decide
    · cases sc <;> decide
    · decide
    · decide
    · decide
    · decide
    · decide
    · decide
    · cases ti <;> decide
    · decide
    · cases ti <;> decide
    · decide
    · decide
    · decide
    · cases ti <;> decide
    · decide
    · cases sc <;> decide
    · decide
    · decide
    · decide
    · cases ti <;> decide
    · decide
    · decide
    · decide
    · cases ti <;> decide
    · decide
    · cases ti <;> decide
    · decide
    · cases ti <;> decide
    · decide
    · cases ti <;> decide
    · decide
    · decide
  · simp only [docChunks, List.cons_append, List.nil_append, List.append_nil, List.map_cons, List.map_nil,
      List.chain'_cons, List.chain'_singleton, and_true]
    refine ⟨?_, ?_, ?_, ?_, ?_, ?_, ?_, ?_, ?_, ?_, ?_, ?_, ?_, ?_, ?_, ?_, ?_, ?_, ?_, ?_, ?_, ?_, ?_, ?_, ?_, ?_, ?_, ?_, ?_, ?_, ?_, ?_⟩
    · cases sc <;> decide
    · cases sc <;> decide
    · decide
    · decide
    · decide
    · decide
    · decide
    · cases ti <;> decide
    · cases ti <;> decide
    · cases ti <;> decide
    · cases ti <;> decide
    · decide
    · decide
    · cases ti <;> decide
    · cases ti <;> decide
    · cases sc <;> decide
    · cases sc <;> decide
    · decide
    · decide
    · cases ti <;> decide
    · cases ti <;> decide
    · decide
    · decide
    · cases ti <;> decide
    · cases ti <;> decide
    · cases ti <;> decide
    · cases ti <;> decide
    · cases ti <;> decide
    · cases ti <;> decide
    · cases ti <;> decide
    · cases ti <;> decide
    · decide


/-- The real-company domain `facebook.com` occurs nowhere in the lower-cased fallback document. -/
theorem noOcc_company5 (sc : ScenarioType) (ti : TargetIndustry) :
    noOcc (pyLower ("facebook.com".data)) (joinStr (List.map pyLower (docChunks sc.value ti.value))) := by
  refine noOcc_join_chunks _ (by decide) _ ?_ ?_
  · intro c hc
    simp only [docChunks, List.cons_append, List.nil_append, List.append_nil, List.map_cons, List.map_nil,
      List.mem_cons, List.not_mem_nil, or_false] at hc
    rcases hc with rfl|rfl|rfl|rfl|rfl|rfl|rfl|rfl|rfl|rfl|rfl|rfl|rfl|rfl|rfl|rfl|rfl|rfl|rfl|rfl|rfl|rfl|rfl|rfl|rfl|rfl|rfl|rfl|rfl|rfl|rfl|rfl|rfl
    · decide
    · cases sc <;> decide
    · decide
    · decide
    · decide
    · decide
    · decide
    · decide
    · cases ti <;> decide
    · decide
    · cases ti <;> decide
    · decide
    · decide
    · decide
    · cases ti <;> decide
    · decide
    · cases sc <;> decide
    · decide
    · decide
    · decide
    · cases ti <;> decide
    · decide
    · decide
    · decide
    · cases ti <;> decide
    · decide
    · cases ti <;> decide
    · decide
    · cases ti <;> decide
    · decide
    · cases ti <;> decide
    · decide
    · decide
  · simp only [docChunks, List.cons_append, List.nil_append, List.append_nil, List.map_cons, List.map_nil,
      List.chain'_cons, List.chain'_singleton, and_true]
    refine ⟨?_, ?_, ?_, ?_, ?_, ?_, ?_, ?_, ?_, ?_, ?_, ?_, ?_, ?_, ?_, ?_, ?_, ?_, ?_, ?_, ?_, ?_, ?_, ?_, ?_, ?_, ?_, ?_, ?_, ?_, ?_, ?_⟩
    · cases sc <;> decide
    · cases sc <;> decide
    · decide
    · decide
    · decide
    · decide
    · decide
    · cases ti <;> decide
    · cases ti <;> decide
    · cases ti <;> decide
    · cases ti <;> decide
    · decide
    · decide
    · cases ti <;> decide
    · cases ti <;> decide
    · cases sc <;> decide
    · cases sc <;> decide
    · decide
    · decide
    · cases ti <;> decide
    · cases ti <;> decide
    · decide
    · decide
    · cases ti <;> decide
    · cases ti <;> decide
    · cases ti <;> decide
    · cases ti <;> decide
    · cases ti <;> decide
    · cases ti <;> decide
    · cases ti <;> decide
    · cases ti <;> decide
    · decide


/-- The fallback document contains no backtick, so no fenced pattern can match. -/
theorem backtick_chunks (sc : ScenarioType) (ti : TargetIndustry) :
    ∀ x ∈ docChunks sc.value ti.value, ¬ (Char.ofNat 96) ∈ x := by
  intro c hc
  simp only [docChunks, List.mem_cons, List.not_mem_nil, or_false] at hc
  rcases hc with rfl|rfl|rfl|rfl|rfl|rfl|rfl|rfl|rfl|rfl|rfl|rfl|rfl|rfl|rfl|rfl|rfl|rfl|rfl|rfl|rfl|rfl|rfl|rfl|rfl|rfl|rfl|rfl|rfl|rfl|rfl|rfl|rfl
  · decide
  · cases sc <;> decide
  · decide
  · decide
  · decide
  · decide
  · decide
  · decide
  · cases ti <;> decide
  · decide
  · cases ti <;> decide
  · decide
  · decide
  · decide
  · cases ti <;> decide
  · decide
  · cases sc <;> decide
  · decide
  · decide
  · decide
  · cases ti <;> decide
  · decide
  · decide
  · decide
  · cases ti <;> decide
  · decide
  · cases ti <;> decide
  · decide
  · cases ti <;> decide
  · decide
  · cases ti <;> decide
  · decide
  · decide

/-! ## The sender comment and the button link of the fallback document -/

/-- The first sender pattern matches at the `<!-- From: ` comment,
capturing the embedded name (with the trailing blank before `<`) and the
embedded address. -/
theorem senderScan (ti : TargetIndustry) (REST : Str) :
    searchFrom false patSender1
      (fbPart1f.data ++ ((get_fallback_sender_info ti.value).1.data ++
        (fbPart2.data ++ ((get_fallback_sender_info ti.value).2.data ++
          (fbPart3a.data ++ REST))))) =
    some ([((get_fallback_sender_info ti.value).1 ++ " ").data,
           (get_fallback_sender_info ti.value).2.data], REST) := by
  cases ti <;> rfl

/-- The `href` pattern matches at the button link, capturing the fake
verification URL. -/
theorem hrefScan (ti : TargetIndustry) (REST : Str) :
    searchFrom true patHref
      (fbPart5c.data ++ ((lowerNoSpace ti.value).data ++
        (fbPart6a.data ++ REST))) =
    some ([("http://fake-" ++ lowerNoSpace ti.value ++
            "-verification.com/verify").data], REST) := by
  cases ti <;> rfl

/-- Per-industry facts about the embedded sender pair and the fake URL. -/
theorem tiSender_facts (ti : TargetIndustry) :
    strip (((get_fallback_sender_info ti.value).1 ++ " ").data) =
        (get_fallback_sender_info ti.value).1.data ∧
    strip ((get_fallback_sender_info ti.value).2.data) =
        (get_fallback_sender_info ti.value).2.data ∧
    (((get_fallback_sender_info ti.value).2.data) ==
        ("security@example.com".data)) = false ∧
    containsSub ("fake-".data)
        (pyLower (("http://fake-" ++ lowerNoSpace ti.value ++
          "-verification.com/verify").data)) = true := by
  cases ti <;> exact ⟨by decide, by decide, by decide, by decide⟩

theorem containsSub_false_of_noOcc {p t : Str} (h : noOcc p t) :
    containsSub p t = false := by
  cases hc : containsSub p t with
  | false => rfl
  | true =>
    obtain ⟨i, hi⟩ := (containsSub_iff p t).mp hc
    exact absurd hi (h i)

theorem occursAt_join_head {pat c : Str} (cs : List Str)
    (h : startsWith pat c = true) (hp : pat ≠ []) :
    occursAt pat (joinStr (c :: cs)) 0 := by
  rw [joinStr_cons]
  exact occursAt_append_left _ h hp

theorem head?_joinStr_cons (c : Str) (cs : List Str) (hc : c ≠ []) :
    (joinStr (c :: cs)).head? = c.head? := by
  rw [joinStr_cons, List.head?_append_of_ne_nil _ hc]


/-! ### Helper lemmas for the extractor theorems -/

theorem noOcc_of_containsSub_false {p t : Str} (h : containsSub p t = false) :
    ∀ i, ¬ occursAt p t i := by
  intro i hocc
  have := (containsSub_iff p t).mpr ⟨i, hocc⟩
  rw [h] at this
  cases this

theorem searchGroup1_none_of_noOcc_head (s : Str) (ts : List Tok) (text : Str)
    (h : ∀ i, ¬ occursAt s text i) :
    searchGroup1 false (Tok.lit s :: ts) text = none := by
  cases hs : searchFrom false (Tok.lit s :: ts) text with
  | none => rw [searchGroup1, hs]
  | some r =>
    obtain ⟨i, hi⟩ := searchFrom_lit_some_occurs hs
    exact absurd hi (h i)

theorem startsWith_length_le {pat rest : Str} (h : startsWith pat rest = true) :
    pat.length ≤ rest.length := by
  rw [startsWith_iff_prefixOf] at h
  exact h.length_le

theorem not_occursAt_of_late (pat text : Str) (k : Nat)
    (hp : 0 < pat.length)
    (h : text.length < k + pat.length) : ¬ occursAt pat text k := by
  intro hc
  have hl := startsWith_length_le hc
  rw [List.length_drop] at hl
  omega

/-- The `</html>` and `</HTML>` markers, as used below. -/
theorem findSub_eq_some_of_min (pat text : Str) (j : Nat)
    (hocc : occursAt pat text j) (hmin : ∀ k < j, ¬ occursAt pat text k) :
    findSub pat text = some j :=
  (findSub_eq_some_iff pat text j).mpr ⟨hocc, hmin⟩

/-- Value of the `start_pos` loop when the earliest occurrence of any
start marker is at `s`. -/
theorem minStart_eq_some (text : Str) (s : Nat)
    (hocc : occursAt ("<!DOCTYPE".data) text s ∨ occursAt ("<html".data) text s ∨
      occursAt ("<HTML".data) text s)
    (hmin : ∀ j < s, ¬ occursAt ("<!DOCTYPE".data) text j ∧
      ¬ occursAt ("<html".data) text j ∧ ¬ occursAt ("<HTML".data) text j) :
    minStart text = some s := by
  have ge : ∀ (m : Str) (j : Nat), (∀ i < s, ¬ occursAt m text i) →
      findSub m text = some j → s ≤ j := by
    intro m j hno hf
    obtain ⟨hocc2, _⟩ := (findSub_eq_some_iff m text j).mp hf
    by_contra hlt
    exact hno j (by omega) hocc2
  have pin : ∀ (m : Str) (j : Nat), findSub m text = some j →
      occursAt m text s → (∀ i < s, ¬ occursAt m text i) → j = s := by
    intro m j hf hm hno
    obtain ⟨_, hmin2⟩ := (findSub_eq_some_iff m text j).mp hf
    have h1 : s ≤ j := ge m j hno hf
    by_contra hne
    exact hmin2 s (by omega) hm
  have noD := fun i (hi : i < s) => (hmin i hi).1
  have noH := fun i (hi : i < s) => (hmin i hi).2.1
  have noC := fun i (hi : i < s) => (hmin i hi).2.2
  cases hd : findSub ("<!DOCTYPE".data) text with
  | none =>
    cases hh : findSub ("<html".data) text with
    | none =>
      cases hC : findSub ("<HTML".data) text with
      | none =>
        exfalso
        rcases hocc with h1 | h1 | h1
        · exact (findSub_eq_none_iff _ text).mp hd s h1
        · exact (findSub_eq_none_iff _ text).mp hh s h1
        · exact (findSub_eq_none_iff _ text).mp hC s h1
      | some jc =>
        have hjc : jc = s := by
          rcases hocc with h1 | h1 | h1
          · exact absurd h1 ((findSub_eq_none_iff _ text).mp hd s)
          · exact absurd h1 ((findSub_eq_none_iff _ text).mp hh s)
          · exact pin _ _ hC h1 noC
        rw [minStart]
        simp only [List.foldl_cons, List.foldl_nil, foldMarker, hd, hh, hC, hjc]
    | some jh =>
      have hbh : s ≤ jh := ge _ jh noH hh
      cases hC : findSub ("<HTML".data) text with
      | none =>
        have hjh : jh = s := by
          rcases hocc with h1 | h1 | h1
          · exact absurd h1 ((findSub_eq_none_iff _ text).mp hd s)
          · exact pin _ _ hh h1 noH
          · exact absurd h1 ((findSub_eq_none_iff _ text).mp hC s)
        rw [minStart]
        simp only [List.foldl_cons, List.foldl_nil, foldMarker, hd, hh, hC, hjh]
      | some jc =>
        have hbc : s ≤ jc := ge _ jc noC hC
        have hone : jh = s ∨ jc = s := by
          rcases hocc with h1 | h1 | h1
          · exact absurd h1 ((findSub_eq_none_iff _ text).mp hd s)
          · exact Or.inl (pin _ _ hh h1 noH)
          · exact Or.inr (pin _ _ hC h1 noC)
        rw [minStart]
        simp only [List.foldl_cons, List.foldl_nil, foldMarker, hd, hh, hC]
        rcases hone with h1 | h1 <;>
          (subst h1; split_ifs <;> (try dsimp only) <;> (try split_ifs) <;>
            first | rfl | (simp only [Option.some.injEq]; omega))
  | some jd =>
    have hbd : s ≤ jd := ge _ jd noD hd
    cases hh : findSub ("<html".data) text with
    | none =>
      cases hC : findSub ("<HTML".data) text with
      | none =>
        have hjd : jd = s := by
          rcases hocc with h1 | h1 | h1
          · exact pin _ _ hd h1 noD
          · exact absurd h1 ((findSub_eq_none_iff _ text).mp hh s)
          · exact absurd h1 ((findSub_eq_none_iff _ text).mp hC s)
        rw [minStart]
        simp only [List.foldl_cons, List.foldl_nil, foldMarker, hd, hh, hC, hjd]
      | some jc =>
        have hbc : s ≤ jc := ge _ jc noC hC
        have hone : jd = s ∨ jc = s := by
          rcases hocc with h1 | h1 | h1
          · exact Or.inl (pin _ _ hd h1 noD)
          · exact absurd h1 ((findSub_eq_none_iff _ text).mp hh s)
          · exact Or.inr (pin _ _ hC h1 noC)
        rw [minStart]
        simp only [List.foldl_cons, List.foldl_nil, foldMarker, hd, hh, hC]
        rcases hone with h1 | h1 <;>
          (subst h1; split_ifs <;> (try dsimp only) <;> (try split_ifs) <;>
            first | rfl | (simp only [Option.some.injEq]; omega))
    | some jh =>
      have hbh : s ≤ jh := ge _ jh noH hh
      cases hC : findSub ("<HTML".data) text with
      | none =>
        have hone : jd = s ∨ jh = s := by
          rcases hocc with h1 | h1 | h1
          · exact Or.inl (pin _ _ hd h1 noD)
          · exact Or.inr (pin _ _ hh h1 noH)
          · exact absurd h1 ((findSub_eq_none_iff _ text).mp hC s)
        rw [minStart]
        simp only [List.foldl_cons, List.foldl_nil, foldMarker, hd, hh, hC]
        rcases hone with h1 | h1 <;>
          (subst h1; split_ifs <;> (try dsimp only) <;> (try split_ifs) <;>
            first | rfl | (simp only [Option.some.injEq]; omega))
      | some jc =>
        have hbc : s ≤ jc := ge _ jc noC hC
        have hone : jd = s ∨ jh = s ∨ jc = s := by
          rcases hocc with h1 | h1 | h1
          · exact Or.inl (pin _ _ hd h1 noD)
          · exact Or.inr (Or.inl (pin _ _ hh h1 noH))
          · exact Or.inr (Or.inr (pin _ _ hC h1 noC))
        rw [minStart]
        simp only [List.foldl_cons, List.foldl_nil, foldMarker, hd, hh, hC]
        rcases hone with h1 | h1 | h1 <;>
          (subst h1; split_ifs <;> (try dsimp only) <;> (try split_ifs) <;>
            first | rfl | (simp only [Option.some.injEq]; omega))

/-- Value of the `end_pos` loop: the last `</html>` if that marker occurs
at all, else the last `</HTML>`. -/
theorem endPos_eq_some_lower (text : Str) (e : Nat)
    (hocc : occursAt ("</html>".data) text e)
    (hmax : ∀ k, e < k → ¬ occursAt ("</html>".data) text k) :
    endPos text = some (e + 7) := by
  have h := (rfindSub_eq_some_iff ("</html>".data) text (by decide) e).mpr ⟨hocc, hmax⟩
  rw [endPos, h]
  rfl

theorem endPos_eq_some_upper (text : Str) (e : Nat)
    (hnone : ∀ k, ¬ occursAt ("</html>".data) text k)
    (hocc : occursAt ("</HTML>".data) text e)
    (hmax : ∀ k, e < k → ¬ occursAt ("</HTML>".data) text k) :
    endPos text = some (e + 7) := by
  have h0 : rfindSub ("</html>".data) text = none :=
    (rfindSub_eq_none_iff _ text).mpr hnone
  have h := (rfindSub_eq_some_iff ("</HTML>".data) text (by decide) e).mpr ⟨hocc, hmax⟩
  rw [endPos, h0, h]
  rfl

/-! ## Round trip of the fallback document (Claim C2) -/

/-- The extractor returns the fallback document whole: no fence matches
(the document has no backtick), direct detection finds `<!DOCTYPE` at
position 0 and the final `</html>`, and stripping is the identity. -/
theorem fallback_extract (sc : ScenarioType) (ti : TargetIndustry) :
    extract_html_from_response ((create_fallback_template sc.value ti.value).data) =
      some ((create_fallback_template sc.value ti.value).data) := by
  rw [doc_eq_join]
  have hbtick : ¬ (Char.ofNat 96) ∈ joinStr (docChunks sc.value ti.value) :=
    not_memChar_join (backtick_chunks sc ti)
  have hf1 : searchGroup1 false patFence1 (joinStr (docChunks sc.value ti.value)) = none :=
    searchGroup1_none_of_noOcc_head _ _ _ (noOcc_of_not_memChar (by decide) hbtick)
  have hf2 : searchGroup1 false patFence2 (joinStr (docChunks sc.value ti.value)) = none :=
    searchGroup1_none_of_noOcc_head _ _ _ (noOcc_of_not_memChar (by decide) hbtick)
  have hf3 : searchGroup1 false patFence3 (joinStr (docChunks sc.value ti.value)) = none :=
    searchGroup1_none_of_noOcc_head _ _ _ (noOcc_of_not_memChar (by decide) hbtick)
  have hf4 : searchGroup1 false patFence4 (joinStr (docChunks sc.value ti.value)) = none :=
    searchGroup1_none_of_noOcc_head _ _ _ (noOcc_of_not_memChar (by decide) hbtick)
  have hocc0 : occursAt ("<!DOCTYPE".data) (joinStr (docChunks sc.value ti.value)) 0 := by
    rw [docChunks_split_head]
    exact occursAt_join_head _ (by decide) (by decide)
  have hguard : containsSub ("<!DOCTYPE".data) (joinStr (docChunks sc.value ti.value)) = true :=
    (containsSub_iff _ _).mpr ⟨0, hocc0⟩
  have hmin : minStart (joinStr (docChunks sc.value ti.value)) = some 0 :=
    minStart_eq_some _ 0 (Or.inl hocc0) (fun j hj => absurd hj (Nat.not_lt_zero j))
  have hsplitF : joinStr (docChunks sc.value ti.value) =
      joinStr (docFrontChunks sc.value ti.value) ++ fbPart10b.data := by
    rw [docChunks_split_front, joinStr_concat]
  have hocc7 : occursAt ("</html>".data) (joinStr (docChunks sc.value ti.value))
      ((joinStr (docFrontChunks sc.value ti.value)).length) := by
    rw [hsplitF]
    have h0 : occursAt ("</html>".data) fbPart10b.data 0 := by decide
    simpa using occursAt_append_right (joinStr (docFrontChunks sc.value ti.value)) h0
  have hlen : (joinStr (docChunks sc.value ti.value)).length =
      (joinStr (docFrontChunks sc.value ti.value)).length + 7 := by
    rw [hsplitF, List.length_append]
    rfl
  have hmax : ∀ k, (joinStr (docFrontChunks sc.value ti.value)).length < k →
      ¬ occursAt ("</html>".data) (joinStr (docChunks sc.value ti.value)) k := by
    intro k hk
    refine not_occursAt_of_late _ _ _ (by decide) ?_
    have h7 : ("</html>".data).length = 7 := by decide
    rw [hlen, h7]
    omega
  have hend : endPos (joinStr (docChunks sc.value ti.value)) =
      some ((joinStr (docFrontChunks sc.value ti.value)).length + 7) :=
    endPos_eq_some_lower _ _ hocc7 hmax
  have hslice : sliceStr (joinStr (docChunks sc.value ti.value)) 0
      ((joinStr (docFrontChunks sc.value ti.value)).length + 7) =
      joinStr (docChunks sc.value ti.value) := by
    rw [sliceStr, ← hlen, List.take_length, List.drop_zero]
  have hhead : (joinStr (docChunks sc.value ti.value)).head? = some '<' := by
    rw [docChunks_split_head, head?_joinStr_cons _ _ (by decide)]
    decide
  have hlast : (joinStr (docChunks sc.value ti.value)).getLast? = some '>' := by
    rw [hsplitF, List.getLast?_append_of_ne_nil _ (by decide)]
    decide
  simp only [extract_html_from_response, hf1, hf2, hf3, hf4, hguard,
    Bool.true_or, if_true, hmin, hend]
  rw [hslice, strip_eq_self hhead (by decide) hlast (by decide)]

/-- Component extraction on the fallback document recovers the embedded
sender name and address: the first sender pattern matches the
`<!-- From: ` comment and the captures are stripped to the embedded
values. -/
theorem fallback_components (sc : ScenarioType) (ti : TargetIndustry) :
    (extract_email_components (joinStr (docChunks sc.value ti.value))).sender_name =
        (get_fallback_sender_info ti.value).1.data ∧
    (extract_email_components (joinStr (docChunks sc.value ti.value))).sender_email =
        (get_fallback_sender_info ti.value).2.data := by
  have hsplit : joinStr (docChunks sc.value ti.value) =
      joinStr (senderPreChunks sc.value) ++
        joinStr (fbPart1f.data :: (get_fallback_sender_info ti.value).1.data ::
          fbPart2.data :: (get_fallback_sender_info ti.value).2.data ::
          fbPart3a.data :: senderTailChunks sc.value ti.value) := by
    rw [docChunks_split_sender, joinStr_append]
  have hskip : searchFrom false patSender1 (joinStr (docChunks sc.value ti.value)) =
      searchFrom false patSender1
        (joinStr (fbPart1f.data :: (get_fallback_sender_info ti.value).1.data ::
          fbPart2.data :: (get_fallback_sender_info ti.value).2.data ::
          fbPart3a.data :: senderTailChunks sc.value ti.value)) := by
    rw [hsplit]
    refine searchFrom_skip_cs _ _ (by decide) ?_
    rw [joinStr_cons, List.take_append_of_le_length (by decide)]
    exact noOcc_cmt_pre sc
  have hsearch : searchFrom false patSender1 (joinStr (docChunks sc.value ti.value)) =
      some ([((get_fallback_sender_info ti.value).1 ++ " ").data,
             (get_fallback_sender_info ti.value).2.data],
            joinStr (senderTailChunks sc.value ti.value)) := by
    rw [hskip]
    simp only [joinStr_cons]
    exact senderScan ti _
  have hsend : senderSearch (joinStr (docChunks sc.value ti.value)) =
      some (((get_fallback_sender_info ti.value).1 ++ " ").data,
            (get_fallback_sender_info ti.value).2.data) := by
    simp only [senderSearch, searchGroup2, hsearch]
  obtain ⟨hs1, hs2, hneq, _⟩ := tiSender_facts ti
  refine ⟨?_, ?_⟩ <;>
    simp only [extract_email_components, hsend, hs1, hs2, hneq,
      Bool.false_eq_true, if_false]

/-- The fallback document passes the safety check with no issues: the
training disclaimer is present, the single `href` URL carries the
`fake-` marker, and no real-company domain occurs. -/
theorem fallback_safety (sc : ScenarioType) (ti : TargetIndustry) :
    validate_html_safety (joinStr (docChunks sc.value ti.value)) = (true, []) := by
  have hdisc : containsSub ("For training only".data)
      (joinStr (docChunks sc.value ti.value)) = true := by
    refine (containsSub_iff _ _).mpr
      ⟨(joinStr (discPreChunks sc.value ti.value)).length, ?_⟩
    rw [docChunks_split_disc, joinStr_append]
    have h0 : occursAt ("For training only".data)
        (joinStr (fbPart3c.data :: discTailChunks sc.value ti.value)) 0 :=
      occursAt_join_head _ (by decide) (by decide)
    simpa using occursAt_append_right (joinStr (discPreChunks sc.value ti.value)) h0
  have hskip2 : searchFrom true patHref (joinStr (docChunks sc.value ti.value)) =
      searchFrom true patHref (joinStr (fbPart5c.data :: (lowerNoSpace ti.value).data ::
        fbPart6a.data :: hrefRestChunks ti.value)) := by
    rw [docChunks_split_href, joinStr_append]
    refine searchFrom_skip_ci _ _ (by decide) ?_
    rw [joinStr_cons, pyLower_append, List.take_append_of_le_length (by decide),
      pyLower_join]
    exact noOcc_href_pre sc ti
  have hsearch2 : searchFrom true patHref (joinStr (docChunks sc.value ti.value)) =
      some ([("http://fake-" ++ lowerNoSpace ti.value ++ "-verification.com/verify").data],
            joinStr (hrefRestChunks ti.value)) := by
    rw [hskip2]
    simp only [joinStr_cons]
    exact hrefScan ti _
  have hnone : searchFrom true patHref (joinStr (hrefRestChunks ti.value)) = none := by
    refine searchFrom_none_ci _ ?_
    rw [pyLower_join]
    exact noOcc_href_rest ti
  have hurls : findAllG1 true patHref (joinStr (docChunks sc.value ti.value)) =
      [("http://fake-" ++ lowerNoSpace ti.value ++ "-verification.com/verify").data] := by
    simp only [findAllG1]
    rw [findAllAux_succ hsearch2, findAllAux_nil hnone]
    rfl
  have hcomp : ∀ c ∈ real_companies,
      containsSub c (pyLower (joinStr (docChunks sc.value ti.value))) = false := by
    intro c hc
    rw [pyLower_join]
    simp only [real_companies, List.mem_cons, List.not_mem_nil, or_false] at hc
    rcases hc with rfl|rfl|rfl|rfl|rfl
    · exact containsSub_false_of_noOcc (noOcc_company1 sc ti)
    · exact containsSub_false_of_noOcc (noOcc_company2 sc ti)
    · exact containsSub_false_of_noOcc (noOcc_company3 sc ti)
    · exact containsSub_false_of_noOcc (noOcc_company4 sc ti)
    · exact containsSub_false_of_noOcc (noOcc_company5 sc ti)
  have h3 : real_companies.filter
      (fun company => containsSub company (pyLower (joinStr (docChunks sc.value ti.value)))) = [] :=
    List.filter_eq_nil_iff.mpr (fun a ha => by simp [hcomp a ha])
  obtain ⟨_, _, _, hfake⟩ := tiSender_facts ti
  simp only [validate_html_safety, hdisc, if_true, hurls, List.filter_cons,
    fake_markers, List.any_cons, List.any_nil, hfake, Bool.true_or,
    Bool.not_true, Bool.false_eq_true, if_false, List.filter_nil,
    List.isEmpty_nil, h3, List.map_nil, List.append_nil, List.nil_append,
    List.length_nil]
  rfl

/-- Claim C2: for every request built from the scenario, industry, urgency
and tone enumerations, the fallback-synthesized HTML document (which
depends only on the scenario and industry values), passed through HTML
extraction and then email-component extraction, yields exactly the sender
name and address that the synthesizer embedded in its
`<!-- From: Name <address> -->` comment, and the same document passes the
safety validation with the safe flag true and an empty issue list. -/
theorem fallback_round_trip (sc : ScenarioType) (ti : TargetIndustry)
    (ul : UrgencyLevel) (ts : ToneStyle) :
    ∃ body : Str,
      extract_html_from_response ((create_fallback_template sc.value ti.value).data) =
          some body ∧
      (extract_email_components body).sender_name =
          (get_fallback_sender_info ti.value).1.data ∧
      (extract_email_components body).sender_email =
          (get_fallback_sender_info ti.value).2.data ∧
      validate_html_safety ((create_fallback_template sc.value ti.value).data) =
          (true, []) := by
  refine ⟨(create_fallback_template sc.value ti.value).data,
    fallback_extract sc ti, ?_, ?_, ?_⟩
  · rw [doc_eq_join]
    exact (fallback_components sc ti).1
  · rw [doc_eq_join]
    exact (fallback_components sc ti).2
  · rw [doc_eq_join]
    exact fallback_safety sc ti

/-! ## Service data model (`models.py`, `services.py`)

`created_at` and `generation_time` are wall-clock values with no bearing
on any property below and are omitted from the embedded records. -/

structure PhishingRequest where
  scenario_type : ScenarioType
  target_industry : TargetIndustry
  urgency_level : UrgencyLevel
  tone_style : ToneStyle
  language : Language
  phishing_tactic : Option PhishingTactic
  advanced_mode : Bool
deriving DecidableEq

structure EmailTemplate where
  id : String
  subject : Str
  sender_name : Str
  sender_email : Str
  html_content : Str
  scenario_type : String
  target_industry : String
  urgency_level : String
  tone_style : String
  language : String
  phishing_tactic : Option String
  advanced_mode : Bool
  word_count : Nat
deriving DecidableEq

structure GenerationResponse where
  success : Bool
  template : Option EmailTemplate
  error : Option String
deriving DecidableEq

structure GenerationHistoryEntry where
  request : PhishingRequest
  template_id : Option String
  success : Bool
  error : Option String
deriving DecidableEq

/-- `TemplateService`: the in-memory template store and history log. -/
structure TemplateService where
  templates : List (String × EmailTemplate)
  generation_history : List GenerationHistoryEntry
deriving DecidableEq

/-- Python dict lookup `templates.get(k)`. -/
def dictGet (d : List (String × EmailTemplate)) (k : String) :
    Option EmailTemplate :=
  match d.find? (fun p => p.1 == k) with
  | some p => some p.2
  | none => none

/-- Python dict assignment `templates[k] = v` (replace if present, else
append; insertion order is preserved as in a Python dict). -/
def dictInsert (d : List (String × EmailTemplate)) (k : String)
    (v : EmailTemplate) : List (String × EmailTemplate) :=
  if (d.find? (fun p => p.1 == k)).isSome then
    d.map (fun p => if p.1 == k then (k, v) else p)
  else d ++ [(k, v)]

/-! ## `PhishingGeneratorService` (`services.py` 193-460) -/

/-- `max_history` of `_record_generation_history`. -/
def max_history : Nat := 1000

/-- `PhishingGeneratorService._record_generation_history`: append, then
keep only the last `max_history` entries. -/
def record_generation_history (history : List GenerationHistoryEntry)
    (entry : GenerationHistoryEntry) : List GenerationHistoryEntry :=
  let h := history ++ [entry]
  if max_history < h.length then h.drop (h.length - max_history) else h

/-- The failure path of `generate_template`'s `except` clause: build the
failure response and record a failure history entry. -/
def failureResult (request : PhishingRequest) (msg : String)
    (svc : TemplateService) : GenerationResponse × TemplateService :=
  let entry : GenerationHistoryEntry := ⟨request, none, false, some msg⟩
  ({ success := false, template := none, error := some msg },
   { svc with generation_history := record_generation_history svc.generation_history entry })

/-- `PhishingGeneratorService._handle_fallback_generation`.  The local
synthesizer is total, so the source's own `except` clause (fallback
synthesis itself raising) is unreachable here. -/
def handle_fallback_generation (request : PhishingRequest)
    (template_id : String) (svc : TemplateService) :
    GenerationResponse × TemplateService :=
  let html := (create_fallback_template request.scenario_type.value
    request.target_industry.value).data
  let components := extract_email_components html
  let template : EmailTemplate :=
    { id := template_id
      subject := components.subject
      sender_name := components.sender_name
      sender_email := components.sender_email
      html_content := html
      scenario_type := request.scenario_type.value
      target_industry := request.target_industry.value
      urgency_level := request.urgency_level.value
      tone_style := request.tone_style.value
      language := request.language.value
      phishing_tactic := request.phishing_tactic.map PhishingTactic.value
      advanced_mode := request.advanced_mode
      word_count := calculate_word_count html }
  let entry : GenerationHistoryEntry := ⟨request, some template_id, true, none⟩
  let svc := { svc with templates := dictInsert svc.templates template_id template }
  let svc :=
    { svc with generation_history := record_generation_history svc.generation_history entry }
  ({ success := true, template := some template, error := none }, svc)

/-- `PhishingGeneratorService.generate_template`.  The Anthropic client is
an oracle: `avail` is `is_available()` and `gen` the outcome of
`generate_content` (a raised exception or the response text);
`template_id` stands for the freshly generated `uuid4` string.  The
`_validate_request` check mirrors the Python truthiness test on the two
enum members (an empty value string would be falsy). -/
def generate_template (request : PhishingRequest) (avail : Bool)
    (gen : Except String String) (template_id : String)
    (svc : TemplateService) : GenerationResponse × TemplateService :=
  if request.scenario_type.value == "" || request.target_industry.value == "" then
    failureResult request
      "Failed to generate template: Scenario type and target industry are required" svc
  else if !avail then handle_fallback_generation request template_id svc
  else
    match gen with
    | Except.error e =>
      failureResult request ("Failed to generate template: " ++ e) svc
    | Except.ok response_text =>
      match extract_html_from_response response_text.data with
      | none => handle_fallback_generation request template_id svc
      | some html_content =>
        if html_content.isEmpty then
          handle_fallback_generation request template_id svc
        else
          let _safety := validate_html_safety html_content
          let components := extract_email_components html_content
          let template : EmailTemplate :=
            { id := template_id
              subject := components.subject
              sender_name := components.sender_name
              sender_email := components.sender_email
              html_content := html_content
              scenario_type := request.scenario_type.value
              target_industry := request.target_industry.value
              urgency_level := request.urgency_level.value
              tone_style := request.tone_style.value
              language := request.language.value
              phishing_tactic := request.phishing_tactic.map PhishingTactic.value
              advanced_mode := request.advanced_mode
              word_count := calculate_word_count html_content }
          let entry : GenerationHistoryEntry :=
            ⟨request, some template_id, true, none⟩
          let svc :=
            { svc with templates := dictInsert svc.templates template_id template }
          let svc :=
            { svc with generation_history := record_generation_history svc.generation_history entry }
          ({ success := true, template := some template, error := none }, svc)

/-- `PhishingGeneratorService.regenerate_template`: look the template up,
re-parse its stored string fields back into the enumerations, and re-run
`generate_template`; an unknown id fails immediately.  The text carried by
a `ValueError` from enum re-parsing is abstracted (no claim reads it). -/
def regenerate_template (template_id : String) (avail : Bool)
    (gen : Except String String) (new_id : String) (svc : TemplateService) :
    GenerationResponse × TemplateService :=
  match dictGet svc.templates template_id with
  | none =>
    ({ success := false, template := none,
       error := some ("Template " ++ template_id ++ " not found") }, svc)
  | some original =>
    let tacticStr : Option String :=
      match original.phishing_tactic with
      | some pt => if pt == "" then none else some pt
      | none => none
    match ScenarioType.fromValue? original.scenario_type,
          TargetIndustry.fromValue? original.target_industry,
          UrgencyLevel.fromValue? original.urgency_level,
          ToneStyle.fromValue? original.tone_style,
          Language.fromValue? original.language with
    | some sc, some ti, some ul, some ts, some lang =>
      match tacticStr with
      | none =>
        generate_template ⟨sc, ti, ul, ts, lang, none, original.advanced_mode⟩
          avail gen new_id svc
      | some pt =>
        match PhishingTactic.fromValue? pt with
        | some tac =>
          generate_template ⟨sc, ti, ul, ts, lang, some tac, original.advanced_mode⟩
            avail gen new_id svc
        | none =>
          ({ success := false, template := none,
             error := some ("Error regenerating template: " ++ pt) }, svc)
    | _, _, _, _, _ =>
      ({ success := false, template := none,
         error := some "Error regenerating template: invalid enum value" }, svc)

/-! ## `RateLimiter` (`utils.py` 291-334)

`time.time()` values are modelled as integers supplied by the caller. -/

structure RateLimiter where
  max_requests : Nat
  time_window : Int
  requests : String → List Int

/-- `RateLimiter.is_allowed`: prune the client's timestamps older than the
window, then admit (recording `now`) iff the remaining count is below the
ceiling. -/
def is_allowed (rl : RateLimiter) (client_id : String) (now : Int) :
    Bool × RateLimiter :=
  let window_start := now - rl.time_window
  let kept := (rl.requests client_id).filter (fun t => window_start < t)
  if rl.max_requests ≤ kept.length then
    (false, { rl with requests := fun c => if c == client_id then kept else rl.requests c })
  else
    (true, { rl with requests := fun c => if c == client_id then kept ++ [now] else rl.requests c })


/-! # Theorems

Helper lemmas shared by several claims, then one theorem per claim. -/

theorem scenario_value_ne_empty (sc : ScenarioType) : (sc.value == "") = false := by
  cases sc <;> rfl

theorem industry_value_ne_empty (ti : TargetIndustry) : (ti.value == "") = false := by
  cases ti <;> rfl

theorem string_append_ne_empty (p e : String) (hp : p.data ≠ []) : p ++ e ≠ "" := by
  intro h
  have hd := congrArg String.data h
  rw [String.data_append] at hd
  have : p.data = [] := by
    cases hpd : p.data with
    | nil => rfl
    | cons c cs => rw [hpd] at hd; cases hd
  exact hp this

theorem contains_append_right (p a b : Str) (h : containsSub p b = true) :
    containsSub p (a ++ b) = true := by
  rw [containsSub_iff] at h ⊢
  obtain ⟨i, hi⟩ := h
  refine ⟨a.length + i, ?_⟩
  unfold occursAt at hi ⊢
  rw [List.drop_append]
  exact hi

/-! ## Claim C7: the history cap -/

theorem record_history_shift (es : List GenerationHistoryEntry)
    (e : GenerationHistoryEntry) :
    record_generation_history (es.drop (es.length - max_history)) e =
      (es ++ [e]).drop ((es ++ [e]).length - max_history) := by
  rw [record_generation_history]
  by_cases hlt : es.length < max_history
  · have h0 : es.length - max_history = 0 := by omega
    rw [h0, List.drop_zero]
    have hc : ¬ (max_history < (es ++ [e]).length) := by
      rw [List.length_append, List.length_singleton]; omega
    rw [if_neg hc]
    have h1 : (es ++ [e]).length - max_history = 0 := by
      rw [List.length_append, List.length_singleton]; omega
    rw [h1, List.drop_zero]
  · have hge : max_history ≤ es.length := by omega
    have hM : 1 ≤ max_history := by rw [max_history]; omega
    have hlen1 : (es.drop (es.length - max_history)).length = max_history := by
      rw [List.length_drop]; omega
    have hc : max_history < (es.drop (es.length - max_history) ++ [e]).length := by
      rw [List.length_append, hlen1, List.length_singleton]; omega
    rw [if_pos hc]
    have h2 : (es.drop (es.length - max_history) ++ [e]).length - max_history = 1 := by
      rw [List.length_append, hlen1, List.length_singleton]; omega
    rw [h2]
    rw [List.drop_append_of_le_length (by rw [hlen1]; omega)]
    rw [List.drop_drop]
    have h3 : (es ++ [e]).length - max_history = 1 + (es.length - max_history) := by
      rw [List.length_append, List.length_singleton]; omega
    rw [h3]
    rw [List.drop_append_of_le_length (by omega)]
    rw [Nat.add_comm]

/-- Claim C7: the generation-history length never exceeds 1000 after any
sequence of recorded attempts, and eviction is FIFO: the log after
recording the entries `es` (starting empty) is exactly the last 1000 of
`es` in order — after 1001 recordings the first entry is gone and the
1001st is present. -/
theorem history_cap_fifo (es : List GenerationHistoryEntry) :
    (es.foldl record_generation_history []).length ≤ max_history ∧
    es.foldl record_generation_history [] = es.drop (es.length - max_history) := by
  have key : es.foldl record_generation_history [] =
      es.drop (es.length - max_history) := by
    induction es using List.reverseRecOn with
    | nil => rfl
    | append_singleton es e ih =>
      rw [List.foldl_append, List.foldl_cons, List.foldl_nil, ih,
        record_history_shift]
  refine ⟨?_, key⟩
  rw [key, List.length_drop]
  omega

/-! ## Claim C9: regeneration with an unknown identifier -/

/-- Claim C9: `regenerate_template` on an identifier absent from the store
returns a failure whose error text reports the template as not found, does
not consult the model oracle (the result is independent of `avail` and
`gen`), adds nothing to the store, records no history, and leaves the
whole service state unchanged. -/
theorem regenerate_unknown_id (template_id : String) (avail : Bool)
    (gen : Except String String) (new_id : String) (svc : TemplateService)
    (h : dictGet svc.templates template_id = none) :
    regenerate_template template_id avail gen new_id svc =
      ({ success := false, template := none,
         error := some ("Template " ++ template_id ++ " not found") }, svc) ∧
    containsSub ("not found".data)
      (("Template " ++ template_id ++ " not found").data) = true := by
  constructor
  · rw [regenerate_template, h]
  · rw [String.data_append, String.data_append]
    apply contains_append_right
    decide

/-- Witness for Claim C9 at a concrete input (empty store). -/
theorem regenerate_unknown_id_witness :
    regenerate_template "tid-1" true (Except.ok "x") "tid-2" ⟨[], []⟩ =
      ({ success := false, template := none,
         error := some ("Template " ++ "tid-1" ++ " not found") }, ⟨[], []⟩) ∧
    containsSub ("not found".data)
      (("Template " ++ "tid-1" ++ " not found").data) = true :=
  regenerate_unknown_id "tid-1" true (Except.ok "x") "tid-2" ⟨[], []⟩ rfl


/-! ## Claim C1: echoed fields on success, clean failure otherwise -/

/-- Claim C1: for every request built from the closed enumerations,
`generate_template` returns either a success carrying a template whose six
echoed string fields equal the request's values, or a failure carrying a
non-empty error with the template store left unchanged. -/
theorem generate_template_echoes_or_fails (request : PhishingRequest)
    (avail : Bool) (gen : Except String String) (template_id : String)
    (svc : TemplateService) :
    ((generate_template request avail gen template_id svc).1.success = true ∧
     ∃ t, (generate_template request avail gen template_id svc).1.template = some t ∧
       t.scenario_type = request.scenario_type.value ∧
       t.target_industry = request.target_industry.value ∧
       t.urgency_level = request.urgency_level.value ∧
       t.tone_style = request.tone_style.value ∧
       t.language = request.language.value ∧
       t.phishing_tactic = request.phishing_tactic.map PhishingTactic.value) ∨
    ((generate_template request avail gen template_id svc).1.success = false ∧
     (∃ msg, (generate_template request avail gen template_id svc).1.error = some msg ∧
       msg ≠ "") ∧
     (generate_template request avail gen template_id svc).2.templates = svc.templates) := by
  unfold generate_template
  rw [scenario_value_ne_empty, industry_value_ne_empty]
  simp only [Bool.or_self, Bool.false_eq_true, if_false]
  cases avail with
  | false =>
    simp only [Bool.not_false, if_true]
    exact Or.inl ⟨rfl, _, rfl, rfl, rfl, rfl, rfl, rfl, rfl⟩
  | true =>
    simp only [Bool.not_true, Bool.false_eq_true, if_false]
    cases gen with
    | error e =>
      exact Or.inr ⟨rfl, ⟨_, rfl,
        string_append_ne_empty _ e (by decide)⟩, rfl⟩
    | ok response_text =>
      dsimp only
      cases hext : extract_html_from_response response_text.data with
      | none =>
        exact Or.inl ⟨rfl, _, rfl, rfl, rfl, rfl, rfl, rfl, rfl⟩
      | some html_content =>
        dsimp only
        by_cases hemp : html_content.isEmpty = true
        · rw [if_pos hemp]
          exact Or.inl ⟨rfl, _, rfl, rfl, rfl, rfl, rfl, rfl, rfl⟩
        · rw [if_neg hemp]
          exact Or.inl ⟨rfl, _, rfl, rfl, rfl, rfl, rfl, rfl, rfl⟩

/-! ## Claim C6: exactly one history entry per attempt -/

/-- Claim C6: every generation attempt appends exactly one history entry
(subject to the cap of `record_generation_history`); the entry's success
flag matches the response, and a failed attempt's entry carries a
non-empty error text. -/
theorem generate_template_one_history_entry (request : PhishingRequest)
    (avail : Bool) (gen : Except String String) (template_id : String)
    (svc : TemplateService) :
    ∃ entry : GenerationHistoryEntry,
      (generate_template request avail gen template_id svc).2.generation_history =
        record_generation_history svc.generation_history entry ∧
      entry.success = (generate_template request avail gen template_id svc).1.success ∧
      (entry.success = false → ∃ msg, entry.error = some msg ∧ msg ≠ "") := by
  unfold generate_template
  rw [scenario_value_ne_empty, industry_value_ne_empty]
  simp only [Bool.or_self, Bool.false_eq_true, if_false]
  cases avail with
  | false =>
    simp only [Bool.not_false, if_true]
    exact ⟨⟨request, some template_id, true, none⟩, rfl, rfl, by intro h; cases h⟩
  | true =>
    simp only [Bool.not_true, Bool.false_eq_true, if_false]
    cases gen with
    | error e =>
      refine ⟨⟨request, none, false, some ("Failed to generate template: " ++ e)⟩,
        rfl, rfl, ?_⟩
      intro _
      exact ⟨_, rfl, string_append_ne_empty _ e (by decide)⟩
    | ok response_text =>
      dsimp only
      cases hext : extract_html_from_response response_text.data with
      | none =>
        exact ⟨⟨request, some template_id, true, none⟩, rfl, rfl, by intro h; cases h⟩
      | some html_content =>
        dsimp only
        by_cases hemp : html_content.isEmpty = true
        · rw [if_pos hemp]
          exact ⟨⟨request, some template_id, true, none⟩, rfl, rfl, by intro h; cases h⟩
        · rw [if_neg hemp]
          exact ⟨⟨request, some template_id, true, none⟩, rfl, rfl, by intro h; cases h⟩


/-! ## Claim C8: the rate limiter -/

/-- Run a sequence of admission checks for one client at the given times. -/
def runChecks (rl : RateLimiter) (client : String) : List Int → List Bool × RateLimiter
  | [] => ([], rl)
  | t :: ts =>
    let r := is_allowed rl client t
    let rest := runChecks r.2 client ts
    (r.1 :: rest.1, rest.2)

theorem is_allowed_accept (rl : RateLimiter) (c : String) (now : Int)
    (h : ((rl.requests c).filter (fun t => decide (now - rl.time_window < t))).length <
      rl.max_requests) :
    (is_allowed rl c now).1 = true ∧
    ((is_allowed rl c now).2).requests c =
      (rl.requests c).filter (fun t => decide (now - rl.time_window < t)) ++ [now] ∧
    ((is_allowed rl c now).2).max_requests = rl.max_requests ∧
    ((is_allowed rl c now).2).time_window = rl.time_window := by
  simp only [is_allowed]
  rw [if_neg (by omega)]
  refine ⟨rfl, ?_, rfl, rfl⟩
  simp

theorem is_allowed_reject (rl : RateLimiter) (c : String) (now : Int)
    (h : rl.max_requests ≤
      ((rl.requests c).filter (fun t => decide (now - rl.time_window < t))).length) :
    (is_allowed rl c now).1 = false ∧
    ((is_allowed rl c now).2).requests c =
      (rl.requests c).filter (fun t => decide (now - rl.time_window < t)) ∧
    ((is_allowed rl c now).2).max_requests = rl.max_requests ∧
    ((is_allowed rl c now).2).time_window = rl.time_window := by
  simp only [is_allowed]
  rw [if_pos h]
  refine ⟨rfl, ?_, rfl, rfl⟩
  simp

theorem runChecks_all_admitted (c : String) :
    ∀ (ts : List Int) (rl : RateLimiter) (kept : List Int),
      rl.requests c = kept →
      kept.length + ts.length ≤ rl.max_requests →
      (∀ x ∈ kept, ∀ n ∈ ts, n - rl.time_window < x) →
      ts.Pairwise (fun a b => b - rl.time_window < a) →
      (runChecks rl c ts).1 = List.replicate ts.length true ∧
      ((runChecks rl c ts).2).requests c = kept ++ ts ∧
      ((runChecks rl c ts).2).max_requests = rl.max_requests ∧
      ((runChecks rl c ts).2).time_window = rl.time_window := by
  intro ts
  induction ts with
  | nil =>
    intro rl kept hk _ _ _
    exact ⟨rfl, by rw [runChecks]; simpa using hk, rfl, rfl⟩
  | cons t ts ih =>
    intro rl kept hk hlen hwin hpair
    have hfilter : (rl.requests c).filter (fun x => decide (t - rl.time_window < x)) = kept := by
      rw [hk]
      apply List.filter_eq_self.mpr
      intro a ha
      simp only [decide_eq_true_eq]
      exact hwin a ha t (by simp)
    have hlt : ((rl.requests c).filter (fun x => decide (t - rl.time_window < x))).length <
        rl.max_requests := by
      rw [hfilter]
      simp only [List.length_cons] at hlen
      omega
    obtain ⟨hb, hreq, hmax, hwnd⟩ := is_allowed_accept rl c t hlt
    rw [hfilter] at hreq
    have hpair2 := List.pairwise_cons.mp hpair
    have ihres := ih ((is_allowed rl c t).2) (kept ++ [t])
      hreq
      (by rw [List.length_append, List.length_singleton, hmax]
          simp only [List.length_cons] at hlen
          omega)
      (by intro x hx n hn
          rw [hwnd]
          rcases List.mem_append.mp hx with hx1 | hx1
          · exact hwin x hx1 n (by simp [hn])
          · rw [List.mem_singleton] at hx1
            subst hx1
            exact hpair2.1 n hn)
      (by rw [hwnd]; exact hpair2.2)
    rw [runChecks]
    simp only [List.length_cons, List.replicate_succ]
    refine ⟨?_, ?_, ?_, ?_⟩
    · rw [ihres.1, hb]
    · rw [ihres.2.1, List.append_assoc]
      rfl
    · rw [ihres.2.2.1, hmax]
    · rw [ihres.2.2.2, hwnd]

theorem is_allowed_reject_full (rl : RateLimiter) (c : String) (t11 : Int)
    (ts : List Int)
    (hmax : rl.max_requests = 10) (hwnd : rl.time_window = 60)
    (hreq : rl.requests c = ts) (hlen : ts.length = 10)
    (h11 : ∀ x ∈ ts, t11 - 60 < x) :
    (is_allowed rl c t11).1 = false ∧
    ((is_allowed rl c t11).2).requests c = ts ∧
    ((is_allowed rl c t11).2).max_requests = 10 ∧
    ((is_allowed rl c t11).2).time_window = 60 := by
  have hfilter : (rl.requests c).filter (fun x => decide (t11 - rl.time_window < x)) = ts := by
    rw [hreq, hwnd]
    apply List.filter_eq_self.mpr
    intro a ha
    simp only [decide_eq_true_eq]
    exact h11 a ha
  have hge : rl.max_requests ≤
      ((rl.requests c).filter (fun x => decide (t11 - rl.time_window < x))).length := by
    rw [hfilter, hlen, hmax]
  obtain ⟨hb, hreq2, hmax2, hwnd2⟩ := is_allowed_reject rl c t11 hge
  rw [hfilter] at hreq2
  exact ⟨hb, hreq2, by rw [hmax2, hmax], by rw [hwnd2, hwnd]⟩

theorem is_allowed_after_window (rl : RateLimiter) (c : String) (t12 : Int)
    (ts : List Int)
    (hmax : rl.max_requests = 10) (hwnd : rl.time_window = 60)
    (hreq : rl.requests c = ts)
    (h12 : ∀ x ∈ ts, x ≤ t12 - 60) :
    (is_allowed rl c t12).1 = true := by
  have hfilter : (rl.requests c).filter (fun x => decide (t12 - rl.time_window < x)) = [] := by
    rw [hreq, hwnd]
    apply List.filter_eq_nil_iff.mpr
    intro a ha
    simp only [decide_eq_true_eq]
    have := h12 a ha
    omega
  have hlt : ((rl.requests c).filter (fun x => decide (t12 - rl.time_window < x))).length <
      rl.max_requests := by
    rw [hfilter, hmax]
    simp
  exact (is_allowed_accept rl c t12 hlt).1

/-- Claim C8: with ceiling 10 and window 60, ten checks for one client
within a single window are all admitted, each recording its timestamp; an
eleventh check inside the window is rejected without recording; a check
made after the window has elapsed past the recorded requests is admitted
again; and any check first prunes, so that afterwards only timestamps
inside the window remain recorded. -/
theorem rate_limiter_scenario (ts : List Int) (t11 t12 : Int) (c : String)
    (rl : RateLimiter)
    (hmax : rl.max_requests = 10) (hwnd : rl.time_window = 60)
    (hreq : rl.requests c = [])
    (hlen : ts.length = 10)
    (hpair : ts.Pairwise (fun a b => b - 60 < a))
    (h11 : ∀ x ∈ ts, t11 - 60 < x)
    (h12 : ∀ x ∈ ts, x ≤ t12 - 60) :
    (runChecks rl c ts).1 = List.replicate 10 true ∧
    ((runChecks rl c ts).2).requests c = ts ∧
    (is_allowed (runChecks rl c ts).2 c t11).1 = false ∧
    ((is_allowed (runChecks rl c ts).2 c t11).2).requests c = ts ∧
    (is_allowed ((is_allowed (runChecks rl c ts).2 c t11).2) c t12).1 = true ∧
    (∀ (rl2 : RateLimiter) (now : Int), 0 < rl2.time_window →
      ∀ x ∈ ((is_allowed rl2 c now).2).requests c, now - rl2.time_window < x) := by
  obtain ⟨hres, hreqs, hmax2, hwnd2⟩ := runChecks_all_admitted c ts rl [] hreq
    (by rw [hmax, hlen]; simp)
    (by intro x hx; cases hx)
    (by simpa only [hwnd] using hpair)
  simp only [List.nil_append] at hreqs
  obtain ⟨hb11, hreq11, hmax11, hwnd11⟩ :=
    is_allowed_reject_full ((runChecks rl c ts).2) c t11 ts
      (by rw [hmax2, hmax]) (by rw [hwnd2, hwnd]) hreqs hlen h11
  refine ⟨by rw [hres, hlen], hreqs, hb11, hreq11, ?_, ?_⟩
  · exact is_allowed_after_window _ c t12 ts hmax11 hwnd11 hreq11 h12
  · intro rl2 now hw x hx
    simp only [is_allowed] at hx
    by_cases hcond : rl2.max_requests ≤
        ((rl2.requests c).filter (fun t => decide (now - rl2.time_window < t))).length
    · rw [if_pos hcond] at hx
      simp only [beq_self_eq_true, eq_self_iff_true, if_true] at hx
      have := List.of_mem_filter hx
      simpa using this
    · rw [if_neg hcond] at hx
      simp only [beq_self_eq_true, eq_self_iff_true, if_true] at hx
      rcases List.mem_append.mp hx with hx1 | hx1
      · have := List.of_mem_filter hx1
        simpa using this
      · rw [List.mem_singleton] at hx1
        subst hx1
        omega

/-- Witness for Claim C8 at concrete times 0..9, 10, and 69. -/
theorem rate_limiter_scenario_witness :
    (runChecks ⟨10, 60, fun _ => []⟩ "client" [0, 1, 2, 3, 4, 5, 6, 7, 8, 9]).1 =
      List.replicate 10 true ∧
    ((runChecks ⟨10, 60, fun _ => []⟩ "client" [0, 1, 2, 3, 4, 5, 6, 7, 8, 9]).2).requests "client" =
      [0, 1, 2, 3, 4, 5, 6, 7, 8, 9] ∧
    (is_allowed (runChecks ⟨10, 60, fun _ => []⟩ "client" [0, 1, 2, 3, 4, 5, 6, 7, 8, 9]).2 "client" 10).1 = false ∧
    ((is_allowed (runChecks ⟨10, 60, fun _ => []⟩ "client" [0, 1, 2, 3, 4, 5, 6, 7, 8, 9]).2 "client" 10).2).requests "client" =
      [0, 1, 2, 3, 4, 5, 6, 7, 8, 9] ∧
    (is_allowed ((is_allowed (runChecks ⟨10, 60, fun _ => []⟩ "client" [0, 1, 2, 3, 4, 5, 6, 7, 8, 9]).2 "client" 10).2) "client" 69).1 = true ∧
    (∀ (rl2 : RateLimiter) (now : Int), 0 < rl2.time_window →
      ∀ x ∈ ((is_allowed rl2 "client" now).2).requests "client", now - rl2.time_window < x) :=
  rate_limiter_scenario [0, 1, 2, 3, 4, 5, 6, 7, 8, 9] 10 69 "client"
    ⟨10, 60, fun _ => []⟩ rfl rfl rfl rfl (by decide)
    (by intro x hx; fin_cases hx <;> omega)
    (by intro x hx; fin_cases hx <;> omega)


/-! ## Claims C5 and C10: component extraction defaults and gating -/

theorem generate_realistic_sender_subject (html : Str) (c : EmailComponents) :
    (generate_realistic_sender html c).subject = c.subject := by
  rw [generate_realistic_sender]
  cases industry_mappings.find?
      (fun m => m.1.any (fun word => containsSub word (pyLower html))) with
  | none => rfl
  | some m => rfl

theorem generate_realistic_sender_fields (html : Str) (c c2 : EmailComponents) :
    (generate_realistic_sender html c).sender_name =
      (generate_realistic_sender html c2).sender_name ∧
    (generate_realistic_sender html c).sender_email =
      (generate_realistic_sender html c2).sender_email := by
  rw [generate_realistic_sender, generate_realistic_sender]
  cases industry_mappings.find?
      (fun m => m.1.any (fun word => containsSub word (pyLower html))) with
  | none => exact ⟨rfl, rfl⟩
  | some m => exact ⟨rfl, rfl⟩

/-- The sender branch of `extract_email_components` when a sender pattern
matched and its (stripped) address is not the built-in default. -/
theorem extract_components_sender_matched (html : Str) (g1 g2 : Str)
    (h : senderSearch html = some (g1, g2))
    (hgate : (strip g2 == "security@example.com".data) = false) :
    (extract_email_components html).sender_name = strip g1 ∧
    (extract_email_components html).sender_email = strip g2 := by
  rw [extract_email_components]
  cases hsub : subjectSearch html with
  | none =>
    dsimp only
    rw [h]
    dsimp only
    rw [if_neg (by rw [hgate]; exact fun hc => by cases hc)]
    exact ⟨rfl, rfl⟩
  | some g =>
    dsimp only
    rw [h]
    dsimp only
    rw [if_neg (by rw [hgate]; exact fun hc => by cases hc)]
    exact ⟨rfl, rfl⟩

/-- Claim C5: `extract_email_components` is total by construction, and its
defaults are as specified: if no subject pattern matches the subject field
is `"Generated Phishing Email"`, and if no sender pattern matches and no
industry keyword occurs in the lower-cased document, the sender is the
generic `{"Support Team", "support@fake-secureservices.net"}` pair. -/
theorem extract_components_defaults (html : Str) :
    (subjectSearch html = none →
      (extract_email_components html).subject = "Generated Phishing Email".data) ∧
    (senderSearch html = none →
      (∀ m ∈ industry_mappings, ∀ w ∈ m.1, containsSub w (pyLower html) = false) →
      (extract_email_components html).sender_name = "Support Team".data ∧
      (extract_email_components html).sender_email =
        "support@fake-secureservices.net".data) := by
  constructor
  · intro hsub
    rw [extract_email_components, hsub]
    dsimp only
    cases hsnd : senderSearch html with
    | none =>
      dsimp only
      split
      · exact generate_realistic_sender_subject html _
      · rfl
    | some r =>
      rcases r with ⟨g1, g2⟩
      dsimp only
      split
      · exact generate_realistic_sender_subject html _
      · rfl
  · intro hsnd hkw
    have hfind : industry_mappings.find?
        (fun m => m.1.any (fun word => containsSub word (pyLower html))) = none := by
      apply List.find?_eq_none.mpr
      intro m hm
      simp only [List.any_eq_true]
      rintro ⟨w, hw, hcw⟩
      rw [hkw m hm w hw] at hcw
      cases hcw
    rw [extract_email_components]
    cases hsub : subjectSearch html with
    | none =>
      dsimp only
      rw [hsnd]
      dsimp only
      rw [if_pos (by rfl)]
      rw [generate_realistic_sender, hfind]
      exact ⟨rfl, rfl⟩
    | some g =>
      dsimp only
      rw [hsnd]
      dsimp only
      rw [if_pos (by rfl)]
      rw [generate_realistic_sender, hfind]
      exact ⟨rfl, rfl⟩

/-- Witness for Claim C5 on the input `"hello"`, which matches nothing. -/
theorem extract_components_defaults_witness :
    (extract_email_components ("hello".data)).subject =
      "Generated Phishing Email".data ∧
    (extract_email_components ("hello".data)).sender_name = "Support Team".data ∧
    (extract_email_components ("hello".data)).sender_email =
      "support@fake-secureservices.net".data := by
  have h := extract_components_defaults ("hello".data)
  have h1 := h.1 (by decide)
  have h2 := h.2 (by decide) (by decide)
  exact ⟨h1, h2.1, h2.2⟩

/-- Claim C10: industry inference is gated on the extracted address being
exactly the built-in default `security@example.com`, not on whether a
sender pattern matched: when a sender pattern matches and its stripped
address equals `security@example.com`, the matched name and address are
discarded and replaced by the industry-inference (or generic) pair. -/
theorem sender_match_default_email_discarded (html : Str) (g1 g2 : Str)
    (h : senderSearch html = some (g1, g2))
    (he : strip g2 = "security@example.com".data) :
    (extract_email_components html).sender_name =
      (generate_realistic_sender html ⟨[], [], []⟩).sender_name ∧
    (extract_email_components html).sender_email =
      (generate_realistic_sender html ⟨[], [], []⟩).sender_email := by
  rw [extract_email_components]
  cases hsub : subjectSearch html with
  | none =>
    dsimp only
    rw [h]
    dsimp only
    rw [if_pos (by rw [he]; decide)]
    exact generate_realistic_sender_fields html _ _
  | some g =>
    dsimp only
    rw [h]
    dsimp only
    rw [if_pos (by rw [he]; decide)]
    exact generate_realistic_sender_fields html _ _

/-- Witness for Claim C10: an in-content `From:` line carrying exactly the
default address is matched by sender pattern 4, yet its name
`Security Team` is discarded in favour of the generic inferred pair. -/
theorem sender_match_default_email_discarded_witness :
    (extract_email_components ("From: Security Team <security@example.com>".data)).sender_name =
      "Support Team".data ∧
    (extract_email_components ("From: Security Team <security@example.com>".data)).sender_email =
      "support@fake-secureservices.net".data := by
  have h := sender_match_default_email_discarded
    ("From: Security Team <security@example.com>".data)
    ("Security Team ".data) ("security@example.com".data)
    (by decide) (by decide)
  refine ⟨h.1.trans (by decide), h.2.trans (by decide)⟩


/-! ## Claim C3: fenced-pattern order in `extract_html_from_response` -/

/-- Claim C3: the four fenced patterns are searched in their fixed order,
each over the whole text; the first pattern with a match anywhere wins and
its group-1 capture, trimmed, is returned at once without trying the
remaining patterns; and on input with no code fence and no
`<!DOCTYPE`/`<html` marker (case-insensitively) the extractor returns the
not-found value. -/
theorem extract_html_pattern_order (text : Str) :
    (∀ g, searchGroup1 false patFence1 text = some g →
      extract_html_from_response text = some (strip g)) ∧
    (searchGroup1 false patFence1 text = none →
      ∀ g, searchGroup1 false patFence2 text = some g →
        extract_html_from_response text = some (strip g)) ∧
    (searchGroup1 false patFence1 text = none →
      searchGroup1 false patFence2 text = none →
      ∀ g, searchGroup1 false patFence3 text = some g →
        extract_html_from_response text = some (strip g)) ∧
    (searchGroup1 false patFence1 text = none →
      searchGroup1 false patFence2 text = none →
      searchGroup1 false patFence3 text = none →
      ∀ g, searchGroup1 false patFence4 text = some g →
        extract_html_from_response text = some (strip g)) ∧
    (containsSub ("```".data) text = false →
      containsSub ("<!DOCTYPE".data) text = false →
      containsSub ("<html".data) (pyLower text) = false →
      extract_html_from_response text = none) := by
  refine ⟨?_, ?_, ?_, ?_, ?_⟩
  · intro g h1
    rw [extract_html_from_response, h1]
  · intro h1 g h2
    rw [extract_html_from_response, h1, h2]
  · intro h1 h2 g h3
    rw [extract_html_from_response, h1, h2, h3]
  · intro h1 h2 h3 g h4
    rw [extract_html_from_response, h1, h2, h3, h4]
  · intro hbt hdoc hhtml
    have hno : ∀ i, ¬ occursAt ("```".data) text i := noOcc_of_containsSub_false hbt
    have hip : ∀ (q : Str) (i : Nat), ¬ occursAt (("```".data) ++ q) text i := by
      intro q i hc
      exact hno i (startsWith_append_left hc)
    have e1 : ("```html\n".data) = ("```".data) ++ ("html\n".data) := rfl
    have e2 : ("```html".data) = ("```".data) ++ ("html".data) := rfl
    have e3 : ("```\n".data) = ("```".data) ++ ("\n".data) := rfl
    have h1 : searchGroup1 false patFence1 text = none := by
      apply searchGroup1_none_of_noOcc_head
      rw [e1]
      exact hip _
    have h2 : searchGroup1 false patFence2 text = none := by
      apply searchGroup1_none_of_noOcc_head
      rw [e2]
      exact hip _
    have h3 : searchGroup1 false patFence3 text = none := by
      apply searchGroup1_none_of_noOcc_head
      rw [e3]
      exact hip _
    have h4 : searchGroup1 false patFence4 text = none := by
      apply searchGroup1_none_of_noOcc_head
      exact hno
    rw [extract_html_from_response, h1, h2, h3, h4, hdoc, hhtml]
    rfl

/-- Witness for Claim C3: a fenced `html` block is returned trimmed, and a
marker-free input yields the not-found value. -/
theorem extract_html_pattern_order_witness :
    extract_html_from_response ("x```html\n <b>A</b> \n```y".data) =
      some ("<b>A</b>".data) ∧
    extract_html_from_response ("no markers here".data) = none := by
  constructor
  · exact ((extract_html_pattern_order ("x```html\n <b>A</b> \n```y".data)).1
      (" <b>A</b> ".data) (by decide)).trans (by decide)
  · exact (extract_html_pattern_order ("no markers here".data)).2.2.2.2
      (by decide) (by decide) (by decide)


/-! ## Claim C4: direct HTML detection ("Method 2") -/

/-- Counterexample to Claim C4 as stated: on `"<html>x</html></HTML>"` the
overall last end marker is the `</HTML>` at index 14, so the claim
predicts the whole string; the code's end-marker loop breaks at `</html>`
(tried first and found), returning only `"<html>x</html>"`. -/
theorem extract_html_end_marker_counterexample :
    extract_html_from_response ("<html>x</html></HTML>".data) =
      some ("<html>x</html>".data) ∧
    some ("<html>x</html>".data) ≠ some ("<html>x</html></HTML>".data) := by
  constructor
  · decide
  · decide

/-- Claim C4 (amended): when no fenced pattern matches and the text
contains a case-insensitive `<!DOCTYPE` or `<html` marker, the start
boundary is the earliest occurrence among `<!DOCTYPE`, `<html`, `<HTML`,
and the end boundary is the last occurrence of `</html>` — falling back to
the last occurrence of `</HTML>` only when `</html>` does not occur at
all — and if both boundaries exist the result is the trimmed substring
between them, end marker included. -/
theorem extract_html_direct_detection (text : Str) (s e : Nat)
    (hf1 : searchGroup1 false patFence1 text = none)
    (hf2 : searchGroup1 false patFence2 text = none)
    (hf3 : searchGroup1 false patFence3 text = none)
    (hf4 : searchGroup1 false patFence4 text = none)
    (hguard : containsSub ("<!DOCTYPE".data) text = true ∨
      containsSub ("<html".data) (pyLower text) = true)
    (hsocc : occursAt ("<!DOCTYPE".data) text s ∨ occursAt ("<html".data) text s ∨
      occursAt ("<HTML".data) text s)
    (hsmin : ∀ j < s, ¬ occursAt ("<!DOCTYPE".data) text j ∧
      ¬ occursAt ("<html".data) text j ∧ ¬ occursAt ("<HTML".data) text j)
    (hend : (occursAt ("</html>".data) text e ∧
        ∀ k, e < k → ¬ occursAt ("</html>".data) text k) ∨
      ((∀ k, ¬ occursAt ("</html>".data) text k) ∧
        occursAt ("</HTML>".data) text e ∧
        ∀ k, e < k → ¬ occursAt ("</HTML>".data) text k)) :
    extract_html_from_response text = some (strip (sliceStr text s (e + 7))) := by
  have hstart := minStart_eq_some text s hsocc hsmin
  have hendpos : endPos text = some (e + 7) := by
    rcases hend with ⟨hocc, hmax⟩ | ⟨hnone, hocc, hmax⟩
    · exact endPos_eq_some_lower text e hocc hmax
    · exact endPos_eq_some_upper text e hnone hocc hmax
  rw [extract_html_from_response, hf1, hf2, hf3, hf4]
  have hg : (containsSub ("<!DOCTYPE".data) text ||
      containsSub ("<html".data) (pyLower text)) = true := by
    rcases hguard with h | h
    · rw [h]; rfl
    · rw [h, Bool.or_true]
  rw [if_pos hg, hstart, hendpos]

/-- Witness for the amended Claim C4 on `"x<html>A</html>"`
(start boundary 1, end boundary 8). -/
theorem extract_html_direct_detection_witness :
    extract_html_from_response ("x<html>A</html>".data) =
      some ("<html>A</html>".data) := by
  have hlen : ("x<html>A</html>".data).length = 15 := by decide
  have h := extract_html_direct_detection ("x<html>A</html>".data) 1 8
    (by decide) (by decide) (by decide) (by decide)
    (Or.inr (by decide))
    (Or.inr (Or.inl (by decide)))
    (by decide)
    (Or.inl ⟨by decide, fun k hk =>
      not_occursAt_of_late ("</html>".data) ("x<html>A</html>".data) k (by decide)
        (by have h7 : ("</html>".data).length = 7 := by decide
            rw [hlen, h7]
            omega)⟩)
  exact h.trans (by decide)


/-- Witness for Claim C1: the theorem instantiated at a concrete request
with an unavailable completion (the oracle raises). -/
theorem generate_template_echoes_or_fails_witness :
    ((generate_template
        ⟨ScenarioType.SECURITY_ALERT, TargetIndustry.BANKING, UrgencyLevel.NORMAL,
         ToneStyle.FORMAL, Language.ENGLISH, none, false⟩
        true (Except.error "boom") "tid" ⟨[], []⟩).1.success = true ∧
     ∃ t, (generate_template
        ⟨ScenarioType.SECURITY_ALERT, TargetIndustry.BANKING, UrgencyLevel.NORMAL,
         ToneStyle.FORMAL, Language.ENGLISH, none, false⟩
        true (Except.error "boom") "tid" ⟨[], []⟩).1.template = some t ∧
       t.scenario_type = (ScenarioType.SECURITY_ALERT).value ∧
       t.target_industry = (TargetIndustry.BANKING).value ∧
       t.urgency_level = (UrgencyLevel.NORMAL).value ∧
       t.tone_style = (ToneStyle.FORMAL).value ∧
       t.language = (Language.ENGLISH).value ∧
       t.phishing_tactic = (none : Option PhishingTactic).map PhishingTactic.value) ∨
    ((generate_template
        ⟨ScenarioType.SECURITY_ALERT, TargetIndustry.BANKING, UrgencyLevel.NORMAL,
         ToneStyle.FORMAL, Language.ENGLISH, none, false⟩
        true (Except.error "boom") "tid" ⟨[], []⟩).1.success = false ∧
     (∃ msg, (generate_template
        ⟨ScenarioType.SECURITY_ALERT, TargetIndustry.BANKING, UrgencyLevel.NORMAL,
         ToneStyle.FORMAL, Language.ENGLISH, none, false⟩
        true (Except.error "boom") "tid" ⟨[], []⟩).1.error = some msg ∧ msg ≠ "") ∧
     (generate_template
        ⟨ScenarioType.SECURITY_ALERT, TargetIndustry.BANKING, UrgencyLevel.NORMAL,
         ToneStyle.FORMAL, Language.ENGLISH, none, false⟩
        true (Except.error "boom") "tid" ⟨[], []⟩).2.templates =
       (⟨[], []⟩ : TemplateService).templates) :=
  generate_template_echoes_or_fails
    ⟨ScenarioType.SECURITY_ALERT, TargetIndustry.BANKING, UrgencyLevel.NORMAL,
     ToneStyle.FORMAL, Language.ENGLISH, none, false⟩
    true (Except.error "boom") "tid" ⟨[], []⟩

/-- Witness for Claim C6: the theorem instantiated at a concrete failing
attempt. -/
theorem generate_template_one_history_entry_witness :
    ∃ entry : GenerationHistoryEntry,
      (generate_template
        ⟨ScenarioType.PASSWORD_RESET, TargetIndustry.RETAIL, UrgencyLevel.HIGH,
         ToneStyle.CASUAL, Language.ENGLISH, none, false⟩
        true (Except.error "down") "tid" ⟨[], []⟩).2.generation_history =
        record_generation_history ((⟨[], []⟩ : TemplateService)).generation_history entry ∧
      entry.success = (generate_template
        ⟨ScenarioType.PASSWORD_RESET, TargetIndustry.RETAIL, UrgencyLevel.HIGH,
         ToneStyle.CASUAL, Language.ENGLISH, none, false⟩
        true (Except.error "down") "tid" ⟨[], []⟩).1.success ∧
      (entry.success = false → ∃ msg, entry.error = some msg ∧ msg ≠ "") :=
  generate_template_one_history_entry
    ⟨ScenarioType.PASSWORD_RESET, TargetIndustry.RETAIL, UrgencyLevel.HIGH,
     ToneStyle.CASUAL, Language.ENGLISH, none, false⟩
    true (Except.error "down") "tid" ⟨[], []⟩


end Phish
